import Mathlib

/-!
Verification of the k3se cluster orchestration engine (Go sources under
pkg/engine) against its natural-language specification.

The Go code is shallowly embedded: structs become Lean structures, Go
slices become lists, Go strings become Lean strings, and the remote SSH
side effects (uploads, command execution, session close) are modelled by
an explicit oracle describing the outcome of every remote operation.
Engine methods become pure functions threading an explicit engine state
and emitting a trace of remote events.
-/

namespace K3se

/-- Role of a node, from pkg/engine/config.go (type Role string with the
constants RoleAny, RoleServer, RoleAgent). -/
inductive Role where
  | any
  | server
  | agent
deriving DecidableEq, Repr

/-- SSH connection settings, from pkg/sshx/client.go (type Config). -/
structure SSHConfig where
  host : String := ""
  port : Int := 0
  user : String := ""
  password : String := ""
  keyFile : String := ""
  key : String := ""
  passphrase : String := ""
  fingerprint : String := ""
deriving DecidableEq, Repr

/-- Release channels, from pkg/engine/config.go
(var Channels = ["stable", "latest", "testing"]). -/
def Channels : List String := ["stable", "latest", "testing"]

/-- Node configuration fragment, from the K3sConfig struct in
pkg/engine/config.go (the variant holding WriteKubeconfigMode, TLSSAN,
Disable, AdvertiseAddress and NodeLabel). -/
structure K3sConfig where
  writeKubeconfigMode : String := ""
  tlsSAN : List String := []
  disable : List String := []
  advertiseAddress : String := ""
  nodeLabel : List String := []
deriving DecidableEq, Repr

/-- K3sConfig.Merge from pkg/engine/config.go: the receiver is the base
fragment and the argument the override fragment.  The Go code walks the
struct fields by reflection; the embedding enumerates the same fields in
declaration order.  A slice field becomes the base value with the
override value appended (reflect.AppendSlice dst src); a scalar field is
overwritten by the override value exactly when that value is non-zero
(src.Field(i).IsZero() is false). -/
def K3sConfig.merge (c : K3sConfig) (config : K3sConfig) : K3sConfig :=
  { writeKubeconfigMode :=
      if config.writeKubeconfigMode ≠ "" then config.writeKubeconfigMode
      else c.writeKubeconfigMode
    tlsSAN := c.tlsSAN ++ config.tlsSAN
    disable := c.disable ++ config.disable
    advertiseAddress :=
      if config.advertiseAddress ≠ "" then config.advertiseAddress
      else c.advertiseAddress
    nodeLabel := c.nodeLabel ++ config.nodeLabel }

/-- The zero value of K3sConfig: the fragment an empty YAML document
deserializes to (all scalars empty, all slices nil). -/
def K3sConfig.empty : K3sConfig := {}

/-- The effective-configuration computation of the K3sConfig-based
ConfigureNode (the engine version whose node fragment is a single
K3sConfig): config := e.Spec.Cluster.Merge(&node.Config), so the
cluster-wide fragment is the receiver (base) and the node fragment the
argument (override); agent nodes then drop the server-specific keys and
server nodes get the advertise address forced to their SSH host. -/
def effectiveConfigV1 (cluster nodeCfg : K3sConfig) (role : Role) (host : String) :
    K3sConfig :=
  let config := cluster.merge nodeCfg
  let config :=
    if role = Role.agent then { config with writeKubeconfigMode := "", tlsSAN := [] }
    else config
  if role = Role.server then { config with advertiseAddress := host } else config

/-- Server configuration fragment, from pkg/engine/server.go
(type Server).  All fields are carried so that the generic mergo merge
below is field-for-field faithful. -/
structure Server where
  v : Int := 0
  vmodule : String := ""
  log : String := ""
  alsoLogToStderr : Bool := false
  bindAddress : String := ""
  httpsListenPort : Int := 0
  advertiseAddress : String := ""
  advertisePort : Int := 0
  tlsSAN : List String := []
  dataDir : String := ""
  clusterCIDR : String := ""
  serviceCIDR : List String := []
  serviceNodePortRange : String := ""
  clusterDNS : List String := []
  clusterDomain : String := ""
  flannelBackend : String := ""
  writeKubeconfig : String := ""
  writeKubeconfigMode : String := ""
  etcdArg : List String := []
  kubeAPIServerArg : List String := []
  kubeSchedulerArg : List String := []
  kubeControllerManagerArg : List String := []
  kubeCloudControllerManagerArg : List String := []
  datastoreEndpoint : String := ""
  datastoreCAFile : String := ""
  datastoreCertFile : String := ""
  datastoreKeyFile : String := ""
  etcdExposeMetrics : Bool := false
  etcdDisableSnapshots : Bool := false
  etcdSnapshotName : String := ""
  etcdSnapshotScheduleCron : String := ""
  etcdSnapshotRetention : Int := 0
  etcdSnapshotDir : String := ""
  etcdS3 : Bool := false
  etcdS3Endpoint : String := ""
  etcdS3EndpointCA : String := ""
  etcdS3SkipSSLVerify : Bool := false
  etcdS3AccessKey : String := ""
  etcdS3SecretKey : String := ""
  etcdS3Bucket : String := ""
  etcdS3Region : String := ""
  etcdS3Folder : String := ""
  defaultLocalStoragePath : String := ""
  disable : List String := []
  disableScheduler : Bool := false
  disableCloudController : Bool := false
  disableKubeProxy : Bool := false
  disableNetworkPolicy : Bool := false
  nodeName : String := ""
  withNodeID : Bool := false
  nodeLabel : List String := []
  nodeTaint : List String := []
  imageCredentialProviderBinDir : String := ""
  imageCredentialProviderConfig : String := ""
  docker : String := ""
  containerRuntimeEndpoint : String := ""
  pauseImage : String := ""
  snapshotter : String := ""
  privateRegistry : String := ""
  nodeIP : List String := []
  nodeExternalIP : List String := []
  resolvConf : String := ""
  kubeletArg : List String := []
  kubeProxyArg : List String := []
  protectKernelDefaults : Bool := false
  rootless : Bool := false
  server : String := ""
  clusterResetRestorePath : Bool := false
  secretsEncryption : Bool := false
  systemDefaultRegistry : String := ""
  selinux : Bool := false
  lbServerPort : Int := 0
deriving DecidableEq, Repr

/-- Agent configuration fragment, from the Agent struct of the engine
package. -/
structure Agent where
  debug : Bool := false
  v : Int := 0
  vmodule : String := ""
  log : String := ""
  alsoLogToStderr : Bool := false
  server : String := ""
  dataDir : String := ""
  nodeName : String := ""
  withNodeID : Bool := false
  nodeLabel : List String := []
  nodeTaint : List String := []
  imageCredentialProviderBinDir : String := ""
  imageCredentialProviderConfig : String := ""
  docker : Bool := false
  containerRuntimeEndpoint : String := ""
  pauseImage : String := ""
  snapshotter : String := ""
  privateRegistry : String := ""
  nodeIP : List String := []
  nodeExternalIP : List String := []
  resolvConf : String := ""
  flannelIface : String := ""
  flannelConf : String := ""
  kubeletArg : List String := []
  kubeProxyArg : List String := []
  protectKernelDefaults : Bool := false
  rootless : Bool := false
  lbServerPort : Int := 0
deriving DecidableEq, Repr

/-!
mergo.Merge(dst, src, mergo.WithOverride, mergo.WithAppendSlice) as used
by ConfigureNode in pkg/engine/engine.go.  Per field:
a non-zero scalar in src overrides dst (WithOverride); a false bool or
empty string or zero int in src leaves dst alone; a slice in src is
appended after the dst slice (WithAppendSlice: dst.Set(reflect.AppendSlice(dst, src))).
-/

/-- mergo rule for a string field of dst merged with src. -/
def mergoStr (dst src : String) : String := if src ≠ "" then src else dst

/-- mergo rule for an int field. -/
def mergoInt (dst src : Int) : Int := if src ≠ 0 then src else dst

/-- mergo rule for a bool field (the zero value false never overrides). -/
def mergoBool (dst src : Bool) : Bool := if src then src else dst

/-- mergo rule for a slice field under WithAppendSlice. -/
def mergoSlice (dst src : List String) : List String := dst ++ src

/-- mergo.Merge(&dst, src, WithOverride, WithAppendSlice) on Server. -/
def Server.mergo (dst src : Server) : Server :=
  { v := mergoInt dst.v src.v
    vmodule := mergoStr dst.vmodule src.vmodule
    log := mergoStr dst.log src.log
    alsoLogToStderr := mergoBool dst.alsoLogToStderr src.alsoLogToStderr
    bindAddress := mergoStr dst.bindAddress src.bindAddress
    httpsListenPort := mergoInt dst.httpsListenPort src.httpsListenPort
    advertiseAddress := mergoStr dst.advertiseAddress src.advertiseAddress
    advertisePort := mergoInt dst.advertisePort src.advertisePort
    tlsSAN := mergoSlice dst.tlsSAN src.tlsSAN
    dataDir := mergoStr dst.dataDir src.dataDir
    clusterCIDR := mergoStr dst.clusterCIDR src.clusterCIDR
    serviceCIDR := mergoSlice dst.serviceCIDR src.serviceCIDR
    serviceNodePortRange := mergoStr dst.serviceNodePortRange src.serviceNodePortRange
    clusterDNS := mergoSlice dst.clusterDNS src.clusterDNS
    clusterDomain := mergoStr dst.clusterDomain src.clusterDomain
    flannelBackend := mergoStr dst.flannelBackend src.flannelBackend
    writeKubeconfig := mergoStr dst.writeKubeconfig src.writeKubeconfig
    writeKubeconfigMode := mergoStr dst.writeKubeconfigMode src.writeKubeconfigMode
    etcdArg := mergoSlice dst.etcdArg src.etcdArg
    kubeAPIServerArg := mergoSlice dst.kubeAPIServerArg src.kubeAPIServerArg
    kubeSchedulerArg := mergoSlice dst.kubeSchedulerArg src.kubeSchedulerArg
    kubeControllerManagerArg := mergoSlice dst.kubeControllerManagerArg src.kubeControllerManagerArg
    kubeCloudControllerManagerArg := mergoSlice dst.kubeCloudControllerManagerArg src.kubeCloudControllerManagerArg
    datastoreEndpoint := mergoStr dst.datastoreEndpoint src.datastoreEndpoint
    datastoreCAFile := mergoStr dst.datastoreCAFile src.datastoreCAFile
    datastoreCertFile := mergoStr dst.datastoreCertFile src.datastoreCertFile
    datastoreKeyFile := mergoStr dst.datastoreKeyFile src.datastoreKeyFile
    etcdExposeMetrics := mergoBool dst.etcdExposeMetrics src.etcdExposeMetrics
    etcdDisableSnapshots := mergoBool dst.etcdDisableSnapshots src.etcdDisableSnapshots
    etcdSnapshotName := mergoStr dst.etcdSnapshotName src.etcdSnapshotName
    etcdSnapshotScheduleCron := mergoStr dst.etcdSnapshotScheduleCron src.etcdSnapshotScheduleCron
    etcdSnapshotRetention := mergoInt dst.etcdSnapshotRetention src.etcdSnapshotRetention
    etcdSnapshotDir := mergoStr dst.etcdSnapshotDir src.etcdSnapshotDir
    etcdS3 := mergoBool dst.etcdS3 src.etcdS3
    etcdS3Endpoint := mergoStr dst.etcdS3Endpoint src.etcdS3Endpoint
    etcdS3EndpointCA := mergoStr dst.etcdS3EndpointCA src.etcdS3EndpointCA
    etcdS3SkipSSLVerify := mergoBool dst.etcdS3SkipSSLVerify src.etcdS3SkipSSLVerify
    etcdS3AccessKey := mergoStr dst.etcdS3AccessKey src.etcdS3AccessKey
    etcdS3SecretKey := mergoStr dst.etcdS3SecretKey src.etcdS3SecretKey
    etcdS3Bucket := mergoStr dst.etcdS3Bucket src.etcdS3Bucket
    etcdS3Region := mergoStr dst.etcdS3Region src.etcdS3Region
    etcdS3Folder := mergoStr dst.etcdS3Folder src.etcdS3Folder
    defaultLocalStoragePath := mergoStr dst.defaultLocalStoragePath src.defaultLocalStoragePath
    disable := mergoSlice dst.disable src.disable
    disableScheduler := mergoBool dst.disableScheduler src.disableScheduler
    disableCloudController := mergoBool dst.disableCloudController src.disableCloudController
    disableKubeProxy := mergoBool dst.disableKubeProxy src.disableKubeProxy
    disableNetworkPolicy := mergoBool dst.disableNetworkPolicy src.disableNetworkPolicy
    nodeName := mergoStr dst.nodeName src.nodeName
    withNodeID := mergoBool dst.withNodeID src.withNodeID
    nodeLabel := mergoSlice dst.nodeLabel src.nodeLabel
    nodeTaint := mergoSlice dst.nodeTaint src.nodeTaint
    imageCredentialProviderBinDir := mergoStr dst.imageCredentialProviderBinDir src.imageCredentialProviderBinDir
    imageCredentialProviderConfig := mergoStr dst.imageCredentialProviderConfig src.imageCredentialProviderConfig
    docker := mergoStr dst.docker src.docker
    containerRuntimeEndpoint := mergoStr dst.containerRuntimeEndpoint src.containerRuntimeEndpoint
    pauseImage := mergoStr dst.pauseImage src.pauseImage
    snapshotter := mergoStr dst.snapshotter src.snapshotter
    privateRegistry := mergoStr dst.privateRegistry src.privateRegistry
    nodeIP := mergoSlice dst.nodeIP src.nodeIP
    nodeExternalIP := mergoSlice dst.nodeExternalIP src.nodeExternalIP
    resolvConf := mergoStr dst.resolvConf src.resolvConf
    kubeletArg := mergoSlice dst.kubeletArg src.kubeletArg
    kubeProxyArg := mergoSlice dst.kubeProxyArg src.kubeProxyArg
    protectKernelDefaults := mergoBool dst.protectKernelDefaults src.protectKernelDefaults
    rootless := mergoBool dst.rootless src.rootless
    server := mergoStr dst.server src.server
    clusterResetRestorePath := mergoBool dst.clusterResetRestorePath src.clusterResetRestorePath
    secretsEncryption := mergoBool dst.secretsEncryption src.secretsEncryption
    systemDefaultRegistry := mergoStr dst.systemDefaultRegistry src.systemDefaultRegistry
    selinux := mergoBool dst.selinux src.selinux
    lbServerPort := mergoInt dst.lbServerPort src.lbServerPort }

/-- mergo.Merge(&dst, src, WithOverride, WithAppendSlice) on Agent. -/
def Agent.mergo (dst src : Agent) : Agent :=
  { debug := mergoBool dst.debug src.debug
    v := mergoInt dst.v src.v
    vmodule := mergoStr dst.vmodule src.vmodule
    log := mergoStr dst.log src.log
    alsoLogToStderr := mergoBool dst.alsoLogToStderr src.alsoLogToStderr
    server := mergoStr dst.server src.server
    dataDir := mergoStr dst.dataDir src.dataDir
    nodeName := mergoStr dst.nodeName src.nodeName
    withNodeID := mergoBool dst.withNodeID src.withNodeID
    nodeLabel := mergoSlice dst.nodeLabel src.nodeLabel
    nodeTaint := mergoSlice dst.nodeTaint src.nodeTaint
    imageCredentialProviderBinDir := mergoStr dst.imageCredentialProviderBinDir src.imageCredentialProviderBinDir
    imageCredentialProviderConfig := mergoStr dst.imageCredentialProviderConfig src.imageCredentialProviderConfig
    docker := mergoBool dst.docker src.docker
    containerRuntimeEndpoint := mergoStr dst.containerRuntimeEndpoint src.containerRuntimeEndpoint
    pauseImage := mergoStr dst.pauseImage src.pauseImage
    snapshotter := mergoStr dst.snapshotter src.snapshotter
    privateRegistry := mergoStr dst.privateRegistry src.privateRegistry
    nodeIP := mergoSlice dst.nodeIP src.nodeIP
    nodeExternalIP := mergoSlice dst.nodeExternalIP src.nodeExternalIP
    resolvConf := mergoStr dst.resolvConf src.resolvConf
    flannelIface := mergoStr dst.flannelIface src.flannelIface
    flannelConf := mergoStr dst.flannelConf src.flannelConf
    kubeletArg := mergoSlice dst.kubeletArg src.kubeletArg
    kubeProxyArg := mergoSlice dst.kubeProxyArg src.kubeProxyArg
    protectKernelDefaults := mergoBool dst.protectKernelDefaults src.protectKernelDefaults
    rootless := mergoBool dst.rootless src.rootless
    lbServerPort := mergoInt dst.lbServerPort src.lbServerPort }

/-- One target machine, from pkg/engine/node.go (type Node).  The
declared YAML fields role, ssh, server and agent are carried verbatim.
The transient field connected models Client != nil: the Client pointer is
attached by Connect and checked by Disconnect; the zerolog Logger field
is not modelled. -/
structure Node where
  role : Role := Role.any
  ssh : SSHConfig := {}
  server : Server := {}
  agent : Agent := {}
  connected : Bool := false
deriving DecidableEq, Repr

/-- Shared settings across all servers and agents, from the Cluster
struct of pkg/engine/config.go. -/
structure Cluster where
  server : Server := {}
  agent : Agent := {}
deriving DecidableEq, Repr

/-- Root desired-state document, from the Config struct of
pkg/engine/config.go. -/
structure Config where
  version : String := ""
  cluster : Cluster := {}
  nodes : List Node := []
  sshProxy : SSHConfig := {}
deriving DecidableEq, Repr

/-- Number of nodes whose Role is RoleServer, as counted by the loop in
Config.Verify. -/
def Config.controlPlanes (c : Config) : Nat :=
  (c.nodes.filter (fun n => n.role = Role.server)).length

/-- Config.Verify from pkg/engine/config.go.  Returns some error message
exactly when the Go method returns a non-nil error, checking in order:
version in Channels, nodes non-empty, at least one control-plane,
control-plane count odd.  (The Go nil-receiver check cannot arise in the
embedding, where a Config is always a value.) -/
def Config.verify (c : Config) : Option String :=
  if ¬ Channels.contains c.version then
    some "unsupported version must be one of: stable, latest, testing"
  else if c.nodes.isEmpty then
    some "no nodes specified"
  else if c.controlPlanes = 0 then
    some "no control-plane nodes specified"
  else if c.controlPlanes % 2 = 0 then
    some "number of control-plane nodes must be odd"
  else
    none

/-- Engine.FilterNodes from pkg/engine/engine.go, returning the indices
into Spec.Nodes instead of pointers: the Go method hands out pointers
into the slice precisely so that callers mutate the stored nodes, which
the embedding renders as in-place updates at these indices. -/
def filterNodeIdxs (c : Config) (selector : Role) : List Nat :=
  (List.range c.nodes.length).filter fun i =>
    match c.nodes.get? i with
    | some node => node.role = selector ∨ selector = Role.any
    | none => False

/-- Engine transient state, from the Engine struct of
pkg/engine/engine.go: the installer cache, the detected cluster token and
server URL, the cleanup-pending flag and the validated spec. -/
structure EngineState where
  installer : String := ""
  clusterToken : String := ""
  serverURL : String := ""
  cleanupPending : Bool := false
  spec : Config := {}
deriving DecidableEq, Repr

/-- Host of the node stored at index i of the spec ("" out of range,
which never arises for indices produced by filterNodeIdxs). -/
def EngineState.hostAt (e : EngineState) (i : Nat) : String :=
  match e.spec.nodes.get? i with
  | some node => node.ssh.host
  | none => ""

/-- Oracle for the outcomes of all remote and network side effects of
one engine run: whether the installer download succeeds and its bytes,
whether an upload of a path to a host succeeds, whether a command on a
host succeeds and what it writes to stdout, and whether closing a host's
SSH session succeeds.  The engine code is deterministic relative to this
oracle. -/
structure Remote where
  installerFetch : Option String := some ""
  uploadOk : String → String → Bool := fun _ _ => true
  cmdOk : String → String → Bool := fun _ _ => true
  cmdOut : String → String → String := fun _ _ => ""
  connectOk : String → Bool := fun _ => true
  closeOk : String → Bool := fun _ => true

/-- Errors surfaced by engine operations. -/
inductive EngErr where
  | fetchFailed
  | uploadFailed (host path : String)
  | cmdFailed (host cmd : String)
  | connectFailed (host : String)
  | closeFailed (host : String)
  | configInvalid (msg : String)
deriving DecidableEq, Repr

/-- Environment passed to a remote install invocation.  The Go map only
ever holds the five keys below; url and token are none when K3S_URL and
K3S_TOKEN are absent from the map. -/
structure InstallEnv where
  forceRestart : String := "true"
  exec : String := ""
  channel : String := ""
  url : Option String := none
  token : Option String := none
deriving DecidableEq, Repr

/-- Observable remote events of an engine run. -/
inductive Event where
  | upload (host path : String)
  | run (host cmd : String)
  | install (host : String) (env : InstallEnv)
  | close (host : String)
  | logError (host msg : String)
deriving DecidableEq, Repr

/-- Command strings sent over SSH, verbatim from pkg/engine/engine.go. -/
def chmodCmd : String := "chmod +x /tmp/k3se/install.sh"

/-- mkdir command from ConfigureNode. -/
def mkdirCmd : String := "sudo mkdir -m 755 -p /etc/rancher/k3s"

/-- chown-and-move command from ConfigureNode. -/
def mvCmd : String :=
  "sudo chown root:root /tmp/k3se/config.yaml && sudo mv /tmp/k3se/config.yaml /etc/rancher/k3s"

/-- Installer invocation from installControlPlanes and installWorkers. -/
def installCmd : String := "/tmp/k3se/install.sh"

/-- Token read command from fetchClusterToken. -/
def tokenCmd : String := "sudo cat /var/lib/rancher/k3s/server/token"

/-- Cleanup command from Disconnect. -/
def rmCmd : String := "rm -rf /tmp/k3se"

/-- Engine.SetSpec from pkg/engine/engine.go: verify the spec, store it,
and compute the advertised API server URL.  The port starts at 6443, is
replaced by Cluster.Server.HTTPSListenPort when non-zero, then by
Cluster.Server.AdvertisePort when non-zero; the hostname is the first
TLS SAN when any is configured, else the SSH host of the first
control-plane node.  The indexing FilterNodes(RoleServer)[0] is modelled
with get?; the none branch (a Go index-out-of-range panic) is
unreachable after verification succeeds. -/
def setSpec (e : EngineState) (config : Config) : Option (Except EngErr EngineState) :=
  match config.verify with
  | some msg => some (Except.error (EngErr.configInvalid msg))
  | none =>
    let e := { e with spec := config }
    let port : Int :=
      if config.cluster.server.httpsListenPort ≠ 0 then config.cluster.server.httpsListenPort
      else 6443
    let port : Int :=
      if config.cluster.server.advertisePort ≠ 0 then config.cluster.server.advertisePort
      else port
    match (filterNodeIdxs config Role.server).head? with
    | none => none
    | some i0 =>
      let host :=
        match config.cluster.server.tlsSAN.head? with
        | some san => san
        | none => e.hostAt i0
      some (Except.ok { e with serverURL := "https://" ++ host ++ ":" ++ toString port })

/-- Replace the node stored at index i of the spec.  List.set is a no-op
out of range, matching that such indices never reach it. -/
def setNodeAt (e : EngineState) (i : Nat) (n : Node) : EngineState :=
  { e with spec := { e.spec with nodes := e.spec.nodes.set i n } }

/-- Engine.fetchInstallationScript from pkg/engine/engine.go: return the
cached installer, fetching it over HTTP when the cache is empty
(len(e.installer) == 0).  none models a failed http.Get or body read.
The surrounding mutex only matters for the concurrent worker tasks; the
embedding serializes them, so the lock is not modelled. -/
def fetchInstallationScript (r : Remote) (e : EngineState) : EngineState × Option String :=
  if e.installer = "" then
    match r.installerFetch with
    | none => (e, none)
    | some body => ({ e with installer := body }, some body)
  else
    (e, some e.installer)

/-- Engine.ConfigureNode from pkg/engine/engine.go, acting on the node
stored at index i of the spec (the Go method receives a pointer into
Spec.Nodes).  It sets cleanupPending, fetches the installer, uploads it,
marks it executable, then for a server node defaults the advertise
address to the SSH host when empty and merges the cluster server
fragment into the node's stored Server fragment in place (mergo.Merge
with WithOverride and WithAppendSlice), for an agent node merges the
cluster agent fragment likewise, serializes the resulting fragment
(yaml.Marshal, which cannot fail on these structs), uploads it and moves
it into /etc/rancher/k3s.  Every attempted remote operation emits an
event; the first failing step aborts with its error. -/
def configureNode (r : Remote) (e : EngineState) (i : Nat) :
    EngineState × List Event × Option EngErr :=
  match e.spec.nodes.get? i with
  | none => (e, [], none)
  | some node =>
    let e := { e with cleanupPending := true }
    match fetchInstallationScript r e with
    | (e, none) => (e, [], some EngErr.fetchFailed)
    | (e, some _installer) =>
      let host := node.ssh.host
      let ev := [Event.upload host "/tmp/k3se/install.sh"]
      if ¬ r.uploadOk host "/tmp/k3se/install.sh" then
        (e, ev, some (EngErr.uploadFailed host "/tmp/k3se/install.sh"))
      else
        let ev := ev ++ [Event.run host chmodCmd]
        if ¬ r.cmdOk host chmodCmd then
          (e, ev, some (EngErr.cmdFailed host chmodCmd))
        else
          let node :=
            if node.role = Role.server then
              let s := node.server
              let s :=
                if s.advertiseAddress = "" then { s with advertiseAddress := node.ssh.host }
                else s
              { node with server := Server.mergo s e.spec.cluster.server }
            else node
          let node :=
            if node.role = Role.agent then
              { node with agent := Agent.mergo node.agent e.spec.cluster.agent }
            else node
          let e := setNodeAt e i node
          let ev := ev ++ [Event.upload host "/tmp/k3se/config.yaml"]
          if ¬ r.uploadOk host "/tmp/k3se/config.yaml" then
            (e, ev, some (EngErr.uploadFailed host "/tmp/k3se/config.yaml"))
          else
            let ev := ev ++ [Event.run host mkdirCmd]
            if ¬ r.cmdOk host mkdirCmd then
              (e, ev, some (EngErr.cmdFailed host mkdirCmd))
            else
              let ev := ev ++ [Event.run host mvCmd]
              if ¬ r.cmdOk host mvCmd then
                (e, ev, some (EngErr.cmdFailed host mvCmd))
              else
                (e, ev, none)

/-- strings.TrimSpace: drop leading and trailing whitespace.  (Defined
structurally over the character list so that concrete runs reduce; the
exotic Unicode space classes of the Go original never occur in a k3s
token.) -/
def trimSpace (s : String) : String :=
  String.mk (((s.data.dropWhile Char.isWhitespace).reverse.dropWhile
    Char.isWhitespace).reverse)

/-- Engine.fetchClusterToken from pkg/engine/engine.go: read the token
file on the given server host and store the whitespace-trimmed output as
the cluster token. -/
def fetchClusterToken (r : Remote) (e : EngineState) (host : String) :
    EngineState × List Event × Option EngErr :=
  let ev := [Event.run host tokenCmd]
  if ¬ r.cmdOk host tokenCmd then
    (e, ev, some (EngErr.cmdFailed host tokenCmd))
  else
    ({ e with clusterToken := trimSpace (r.cmdOut host tokenCmd) }, ev, none)

/-- The loop body of installControlPlanes over the remaining server
indices.  isFirst is true exactly for the loop index i = 0: from the
second server on, K3S_URL and K3S_TOKEN are written into the (single,
reused) environment map before the installer runs, and after every
server's installation the cluster token is re-read from that server. -/
def cpLoop (r : Remote) (e : EngineState) (env : InstallEnv) (idxs : List Nat)
    (isFirst : Bool) : EngineState × List Event × Option EngErr :=
  match idxs with
  | [] => (e, [], none)
  | i :: rest =>
    let (e1, ev1, err1) := configureNode r e i
    match err1 with
    | some err => (e1, ev1, some err)
    | none =>
      let env :=
        if isFirst then env
        else { env with url := some e1.serverURL, token := some e1.clusterToken }
      let host := e1.hostAt i
      let ev2 := ev1 ++ [Event.install host env]
      if ¬ r.cmdOk host installCmd then
        (e1, ev2, some (EngErr.cmdFailed host installCmd))
      else
        match fetchClusterToken r e1 host with
        | (e2, ev3, some err) => (e2, ev2 ++ ev3, some err)
        | (e2, ev3, none) =>
          let (e3, ev4, err4) := cpLoop r e2 env rest false
          (e3, ev2 ++ ev3 ++ ev4, err4)

/-- Engine.installControlPlanes from pkg/engine/engine.go: sequential
installation of all server nodes in index order.  The environment starts
with INSTALL_K3S_EXEC=server, switched to "server --cluster-init" when
more than one control-plane is configured. -/
def installControlPlanes (r : Remote) (e : EngineState) :
    EngineState × List Event × Option EngErr :=
  let servers := filterNodeIdxs e.spec Role.server
  let env : InstallEnv :=
    { forceRestart := "true"
      exec := if servers.length > 1 then "server --cluster-init" else "server"
      channel := e.spec.version
      url := none
      token := none }
  cpLoop r e env servers true

/-- The body of one worker goroutine from Engine.installWorkers:
configure the node and run the installer in agent mode with the detected
join URL and token; each failure is logged against the node and ends the
task. -/
def workerTask (r : Remote) (e : EngineState) (i : Nat) :
    EngineState × List Event × Option EngErr :=
  let host := e.hostAt i
  let (e1, ev1, err1) := configureNode r e i
  match err1 with
  | some err => (e1, ev1 ++ [Event.logError host "Failed to configure node"], some err)
  | none =>
    let env : InstallEnv :=
      { forceRestart := "true"
        exec := "agent"
        channel := e1.spec.version
        url := some e1.serverURL
        token := some e1.clusterToken }
    let ev2 := ev1 ++ [Event.install host env]
    if ¬ r.cmdOk host installCmd then
      (e1, ev2 ++ [Event.logError host "Failed to run installation script"],
       some (EngErr.cmdFailed host installCmd))
    else
      (e1, ev2, none)

/-- Sequentialized worker fan-out.  The Go code runs one goroutine per
agent and waits on a WaitGroup; each task mutates only its own node and
the mutex-guarded installer cache, and the token/URL fields are only
read, so the per-task event sets and final state are independent of the
interleaving and the embedding runs the tasks in agent index order.  The
error of each task is discarded: the goroutine merely returns after
logging, and installWorkers itself always returns nil. -/
def workersLoop (r : Remote) (e : EngineState) (idxs : List Nat) :
    EngineState × List Event :=
  match idxs with
  | [] => (e, [])
  | i :: rest =>
    let (e1, ev1, _discardedErr) := workerTask r e i
    let (e2, ev2) := workersLoop r e1 rest
    (e2, ev1 ++ ev2)

/-- Engine.installWorkers from pkg/engine/engine.go. -/
def installWorkers (r : Remote) (e : EngineState) : EngineState × List Event :=
  workersLoop r e (filterNodeIdxs e.spec Role.agent)

/-- Engine.Install from pkg/engine/engine.go: control-plane phase first,
aborting on its error, then the worker phase, whose return value is
always nil. -/
def install (r : Remote) (e : EngineState) : EngineState × List Event × Option EngErr :=
  let (e1, ev1, err1) := installControlPlanes r e
  match err1 with
  | some err => (e1, ev1, some err)
  | none =>
    let (e2, ev2) := installWorkers r e1
    (e2, ev1 ++ ev2, none)

/-- Mark the node at index i as connected (Client attached). -/
def setConnectedAt (e : EngineState) (i : Nat) : EngineState :=
  match e.spec.nodes.get? i with
  | none => e
  | some node => setNodeAt e i { node with connected := true }

/-- The per-node loop of Engine.Connect: connect to each node in order,
aborting on the first failure. -/
def connectLoop (r : Remote) (e : EngineState) (idxs : List Nat) :
    EngineState × Option EngErr :=
  match idxs with
  | [] => (e, none)
  | i :: rest =>
    if ¬ r.connectOk (e.hostAt i) then
      (e, some (EngErr.connectFailed (e.hostAt i)))
    else
      connectLoop r (setConnectedAt e i) rest

/-- Engine.Connect from pkg/engine/engine.go: open the proxy session
first when a proxy host is configured, then one session per node in
order, aborting on any failure.  The attached Client pointer is modelled
by the connected flag; the injected logger is not modelled. -/
def connect (r : Remote) (e : EngineState) : EngineState × Option EngErr :=
  if e.spec.sshProxy.host ≠ "" ∧ ¬ r.connectOk e.spec.sshProxy.host then
    (e, some (EngErr.connectFailed e.spec.sshProxy.host))
  else
    connectLoop r e (List.range e.spec.nodes.length)

/-- Uninstall script name by role, from Engine.Uninstall. -/
def uninstallScript (role : Role) : String :=
  if role = Role.agent then "k3s-agent-uninstall.sh" else "k3s-uninstall.sh"

/-- The per-node loop of Engine.Uninstall over the node list: run the
role-appropriate uninstall script, aborting on the first failure.  The
spec is never written. -/
def uninstallLoop (r : Remote) (nodes : List Node) : List Event × Option EngErr :=
  match nodes with
  | [] => ([], none)
  | n :: rest =>
    let script := uninstallScript n.role
    let ev := [Event.run n.ssh.host script]
    if ¬ r.cmdOk n.ssh.host script then
      (ev, some (EngErr.cmdFailed n.ssh.host script))
    else
      let (ev2, err2) := uninstallLoop r rest
      (ev ++ ev2, err2)

/-- Engine.Uninstall from pkg/engine/engine.go (FilterNodes(RoleAny)
returns all nodes in order). -/
def uninstall (r : Remote) (e : EngineState) : List Event × Option EngErr :=
  uninstallLoop r e.spec.nodes

/-- The per-node body of Engine.Disconnect: when cleanupPending, remove
the temporary directory (its failure returns immediately); then close
the node's session when a Client is attached (Node.Disconnect returns
nil for a nil Client). -/
def teardownNode (r : Remote) (cleanup : Bool) (node : Node) :
    List Event × Option EngErr :=
  let evs := if cleanup then [Event.run node.ssh.host rmCmd] else []
  if cleanup ∧ ¬ r.cmdOk node.ssh.host rmCmd then
    (evs, some (EngErr.cmdFailed node.ssh.host rmCmd))
  else if node.connected then
    (evs ++ [Event.close node.ssh.host],
     if r.closeOk node.ssh.host then none else some (EngErr.closeFailed node.ssh.host))
  else
    (evs, none)

/-- The loop of Engine.Disconnect over the node list: the first node
whose cleanup or close fails makes the whole call return that error at
once, before any later node is attempted. -/
def disconnectLoop (r : Remote) (cleanup : Bool) (nodes : List Node) :
    List Event × Option EngErr :=
  match nodes with
  | [] => ([], none)
  | n :: rest =>
    let (ev1, err1) := teardownNode r cleanup n
    match err1 with
    | some err => (ev1, some err)
    | none =>
      let (ev2, err2) := disconnectLoop r cleanup rest
      (ev1 ++ ev2, err2)

/-- Engine.Disconnect from pkg/engine/engine.go.  The spec is never
written, so only the events and the error are returned. -/
def disconnect (r : Remote) (e : EngineState) : List Event × Option EngErr :=
  disconnectLoop r e.cleanupPending e.spec.nodes

/-!
The local credential document handled by Engine.KubeConfig.  The
clientcmd document is, per the specification, an opaque mapping of named
cluster, auth-info and context entries; each entry type carries the
fields the engine reads or writes plus one opaque payload standing for
everything the engine never touches.
-/

/-- A named cluster entry (clientcmdapi.Cluster): the engine rewrites
its Server endpoint; payload stands for the untouched remainder. -/
structure ClusterEntry where
  server : String := ""
  payload : String := ""
deriving DecidableEq, Repr

/-- A named auth-info entry, opaque to the engine. -/
structure AuthEntry where
  payload : String := ""
deriving DecidableEq, Repr

/-- A named context entry (clientcmdapi.Context): the engine rewrites
its Cluster and AuthInfo references. -/
structure ContextEntry where
  cluster : String := ""
  authInfo : String := ""
  payload : String := ""
deriving DecidableEq, Repr

/-- A Go map assignment m[k] = v on an association list: replace the
value at an existing key, append a fresh key. -/
def mapSet {α : Type} (m : List (String × α)) (k : String) (v : α) :
    List (String × α) :=
  match m with
  | [] => [(k, v)]
  | (k', v') :: rest => if k' = k then (k, v) :: rest else (k', v') :: mapSet rest k v

/-- Go map lookup m[k] (none when the key is absent). -/
def mapGet {α : Type} (m : List (String × α)) (k : String) : Option α :=
  match m with
  | [] => none
  | (k', v) :: rest => if k' = k then some v else mapGet rest k

/-- A Go map has each key at most once. -/
def mapWF {α : Type} (m : List (String × α)) : Prop :=
  (m.map Prod.fst).Nodup

/-- The kubeconfig document (clientcmdapi.Config) as the engine sees it:
named clusters, auth-infos and contexts plus the current-context
pointer. -/
structure Kubeconfig where
  clusters : List (String × ClusterEntry) := []
  authInfos : List (String × AuthEntry) := []
  contexts : List (String × ContextEntry) := []
  currentContext : String := ""
deriving DecidableEq, Repr

/-- The merge loops of Engine.KubeConfig (pkg/engine/engine.go): every
cluster, auth-info and context entry of the config produced by this run
is assigned into the pre-existing local config, overwriting same-named
entries; the old document's other entries and its current-context
pointer are left as they are, and the merged old document is what gets
written. -/
def kubeConfigMerge (oldC newC : Kubeconfig) : Kubeconfig :=
  { clusters := newC.clusters.foldl (fun m kv => mapSet m kv.1 kv.2) oldC.clusters
    authInfos := newC.authInfos.foldl (fun m kv => mapSet m kv.1 kv.2) oldC.authInfos
    contexts := newC.contexts.foldl (fun m kv => mapSet m kv.1 kv.2) oldC.contexts
    currentContext := oldC.currentContext }

/-- The local-write step of Engine.KubeConfig: when no file exists at
the destination the freshly produced config is written as is; when a
parseable file exists the merged document is written. -/
def kubeConfigWriteLocal (localFile : Option Kubeconfig) (newC : Kubeconfig) :
    Kubeconfig :=
  match localFile with
  | none => newC
  | some oldC => kubeConfigMerge oldC newC

/-- filepath.Join as used on the resolved home directory.  Go
additionally cleans the joined path lexically; the cleaning is
irrelevant to every claim and not modelled. -/
def joinPath (a b : String) : String := a ++ "/" ++ b

/-- The home-directory resolution step of Engine.KubeConfig
(pkg/engine/engine.go): outputPath[0] is read unconditionally, so the
empty destination panics with an index-out-of-range runtime error, which
the embedding renders as none; otherwise a leading tilde is replaced by
the invoking user's home directory. -/
def resolveOutputPath (home : String) (outputPath : String) : Option String :=
  if outputPath = "" then none
  else if outputPath.get 0 = '~' then some (joinPath home (outputPath.drop 1))
  else some outputPath

/-!  Helper lemmas. -/

/-- Config.Verify succeeds exactly when the version is a known channel,
at least one node exists, and the control-plane count is non-zero and
odd. -/
theorem verify_none_iff (c : Config) :
    c.verify = none ↔
      Channels.contains c.version = true ∧ c.nodes ≠ [] ∧
        c.controlPlanes ≠ 0 ∧ c.controlPlanes % 2 ≠ 0 := by
  unfold Config.verify
  by_cases hv : Channels.contains c.version = true <;>
    by_cases hn : c.nodes.isEmpty <;>
      by_cases h0 : c.controlPlanes = 0 <;>
        by_cases h2 : c.controlPlanes % 2 = 0 <;>
          simp_all [List.isEmpty_iff]

/-- Go map update then lookup: the written key reads back the written
value, other keys are unaffected. -/
theorem mapGet_mapSet {α : Type} (m : List (String × α)) (k q : String) (v : α) :
    mapGet (mapSet m k v) q = if q = k then some v else mapGet m q := by
  induction m with
  | nil =>
    by_cases h : q = k
    · subst h
      simp [mapSet, mapGet]
    · have h' : ¬ k = q := fun hh => h hh.symm
      simp [mapSet, mapGet, h, h']
  | cons hd tl ih =>
    obtain ⟨k0, v0⟩ := hd
    by_cases h0 : k0 = k <;> by_cases hq : k0 = q <;>
      simp_all [mapSet, mapGet, eq_comm]

/-- A key outside a map's key set reads back none. -/
theorem mapGet_eq_none_of_not_mem {α : Type} (m : List (String × α)) (k : String)
    (h : k ∉ m.map Prod.fst) : mapGet m k = none := by
  induction m with
  | nil => rfl
  | cons hd tl ih =>
    obtain ⟨k0, v0⟩ := hd
    simp only [List.map_cons, List.mem_cons] at h
    push_neg at h
    simp [mapGet, Ne.symm h.1, ih h.2]

/-- Folding Go map assignments of a duplicate-free entry list into a
base map: keys of the list read their listed value, all other keys read
the base map. -/
theorem mapGet_foldl_mapSet {α : Type} (l : List (String × α)) :
    ∀ (m0 : List (String × α)) (k : String), (l.map Prod.fst).Nodup →
      mapGet (l.foldl (fun m kv => mapSet m kv.1 kv.2) m0) k =
        match mapGet l k with
        | some v => some v
        | none => mapGet m0 k := by
  induction l with
  | nil => intro m0 k _; rfl
  | cons hd tl ih =>
    intro m0 k hwf
    obtain ⟨k0, v0⟩ := hd
    simp only [List.map_cons, List.nodup_cons] at hwf
    rw [List.foldl_cons, ih (mapSet m0 k0 v0) k hwf.2]
    by_cases hk : k = k0
    · subst hk
      have htl : mapGet tl k = none := mapGet_eq_none_of_not_mem tl k hwf.1
      simp [mapGet, htl, mapGet_mapSet]
    · simp [mapGet, Ne.symm hk, hk, mapGet_mapSet]

/-!  Claim theorems. -/

/-- C2: for every pair of settings fragments (base, override) and every
scalar field of K3sConfig, Merge yields the override's value when the
override's value is non-empty and the base's value otherwise; in
particular Merge(base, empty-override) equals base field-for-field. -/
theorem merge_scalars_override (base ov : K3sConfig) :
    (base.merge ov).writeKubeconfigMode =
      (if ov.writeKubeconfigMode = "" then base.writeKubeconfigMode
       else ov.writeKubeconfigMode) ∧
    (base.merge ov).advertiseAddress =
      (if ov.advertiseAddress = "" then base.advertiseAddress
       else ov.advertiseAddress) ∧
    base.merge K3sConfig.empty = base := by
  refine ⟨?_, ?_, ?_⟩
  · by_cases h : ov.writeKubeconfigMode = "" <;> simp [K3sConfig.merge, h]
  · by_cases h : ov.advertiseAddress = "" <;> simp [K3sConfig.merge, h]
  · cases base
    simp [K3sConfig.merge, K3sConfig.empty]

/-- C3: for every pair of settings fragments and every sequence field of
K3sConfig, the merged field is the concatenation of the base values
first followed by the override values, order preserved and duplicates
kept; the one call site of Merge (ConfigureNode) passes the cluster-wide
fragment as base (receiver) and the node fragment as override, so
cluster-wide values come first in the effective configuration; and
Merge({labels:[a,b]}, {labels:[c]}).labels = [a,b,c]. -/
theorem merge_sequences_concat (base ov cluster nodeCfg : K3sConfig) (host : String) :
    (base.merge ov).tlsSAN = base.tlsSAN ++ ov.tlsSAN ∧
    (base.merge ov).disable = base.disable ++ ov.disable ∧
    (base.merge ov).nodeLabel = base.nodeLabel ++ ov.nodeLabel ∧
    (effectiveConfigV1 cluster nodeCfg Role.server host).nodeLabel =
      cluster.nodeLabel ++ nodeCfg.nodeLabel ∧
    (K3sConfig.merge { nodeLabel := ["a", "b"] } { nodeLabel := ["c"] }).nodeLabel =
      ["a", "b", "c"] := by
  refine ⟨rfl, rfl, rfl, ?_, by decide⟩
  simp [effectiveConfigV1, K3sConfig.merge]

/-- C4: Verify rejects every spec with zero nodes and, holding the
version valid and the node list non-empty, succeeds exactly when the
count of control-plane nodes is odd (even counts, including zero, are
rejected). -/
theorem verify_odd_quorum (c : Config) :
    (c.nodes = [] → c.verify.isSome = true) ∧
    (Channels.contains c.version = true → c.nodes ≠ [] →
      (c.verify = none ↔ c.controlPlanes % 2 = 1)) := by
  constructor
  · intro h
    simp only [Config.verify, h]
    split <;> simp
  · intro hv hn
    rw [verify_none_iff]
    constructor
    · rintro ⟨-, -, -, h2⟩
      omega
    · intro h1
      exact ⟨hv, hn, by omega, by omega⟩

/-- A valid three-control-plane spec instantiating verify_odd_quorum. -/
def specC4 : Config :=
  { version := "stable"
    nodes := [{ role := Role.server, ssh := { host := "a" } },
              { role := Role.server, ssh := { host := "b" } },
              { role := Role.server, ssh := { host := "c" } }] }

/-- Witness for verify_odd_quorum: the three-control-plane spec has a
whitelisted version and a non-empty node list, and Verify accepts it
since 3 is odd. -/
theorem verify_odd_quorum_witness :
    Channels.contains specC4.version = true ∧ specC4.nodes ≠ [] ∧
      (specC4.verify = none ↔ specC4.controlPlanes % 2 = 1) :=
  ⟨by decide, by decide, (verify_odd_quorum specC4).2 (by decide) (by decide)⟩

/-- Pre-existing local credential document with one cluster, one
auth-info and one context entry. -/
def oldDocC6 : Kubeconfig :=
  { clusters := [("clusterA", { server := "https://old:6443", payload := "caA" })]
    authInfos := [("authA", { payload := "keyA" })]
    contexts := [("ctxA", { cluster := "clusterA", authInfo := "authA" })]
    currentContext := "ctxA" }

/-- Document produced by the current run, with entry names disjoint from
the pre-existing ones. -/
def newDocC6 : Kubeconfig :=
  { clusters := [("clusterB", { server := "https://cp1:6443", payload := "caB" })]
    authInfos := [("authB", { payload := "keyB" })]
    contexts := [("ctxB", { cluster := "clusterB", authInfo := "authB" })]
    currentContext := "ctxB" }

/-- C6: when a local credential file exists, KubeConfig merges so that
every cluster, auth-info and context entry produced by the current run
overwrites any same-named existing entry, entries present only in the
old document are preserved unchanged, and for disjoint old entries
clusterA/authA/ctxA and new entries clusterB/authB/ctxB the written
result contains all six. -/
theorem kubeconfig_merge_entries (oldC newC : Kubeconfig) (name : String)
    (hc : (newC.clusters.map Prod.fst).Nodup)
    (ha : (newC.authInfos.map Prod.fst).Nodup)
    (hx : (newC.contexts.map Prod.fst).Nodup) :
    ((∀ v, mapGet newC.clusters name = some v →
        mapGet (kubeConfigWriteLocal (some oldC) newC).clusters name = some v) ∧
     (mapGet newC.clusters name = none →
        mapGet (kubeConfigWriteLocal (some oldC) newC).clusters name =
          mapGet oldC.clusters name)) ∧
    ((∀ v, mapGet newC.authInfos name = some v →
        mapGet (kubeConfigWriteLocal (some oldC) newC).authInfos name = some v) ∧
     (mapGet newC.authInfos name = none →
        mapGet (kubeConfigWriteLocal (some oldC) newC).authInfos name =
          mapGet oldC.authInfos name)) ∧
    ((∀ v, mapGet newC.contexts name = some v →
        mapGet (kubeConfigWriteLocal (some oldC) newC).contexts name = some v) ∧
     (mapGet newC.contexts name = none →
        mapGet (kubeConfigWriteLocal (some oldC) newC).contexts name =
          mapGet oldC.contexts name)) ∧
    (mapGet (kubeConfigWriteLocal (some oldDocC6) newDocC6).clusters "clusterA" =
        mapGet oldDocC6.clusters "clusterA" ∧
      mapGet (kubeConfigWriteLocal (some oldDocC6) newDocC6).clusters "clusterB" =
        mapGet newDocC6.clusters "clusterB" ∧
      mapGet (kubeConfigWriteLocal (some oldDocC6) newDocC6).authInfos "authA" =
        mapGet oldDocC6.authInfos "authA" ∧
      mapGet (kubeConfigWriteLocal (some oldDocC6) newDocC6).authInfos "authB" =
        mapGet newDocC6.authInfos "authB" ∧
      mapGet (kubeConfigWriteLocal (some oldDocC6) newDocC6).contexts "ctxA" =
        mapGet oldDocC6.contexts "ctxA" ∧
      mapGet (kubeConfigWriteLocal (some oldDocC6) newDocC6).contexts "ctxB" =
        mapGet newDocC6.contexts "ctxB") := by
  refine ⟨⟨?_, ?_⟩, ⟨?_, ?_⟩, ⟨?_, ?_⟩, by decide⟩ <;>
    simp only [kubeConfigWriteLocal, kubeConfigMerge]
  · intro v hv
    rw [mapGet_foldl_mapSet newC.clusters oldC.clusters name hc, hv]
  · intro hv
    rw [mapGet_foldl_mapSet newC.clusters oldC.clusters name hc, hv]
  · intro v hv
    rw [mapGet_foldl_mapSet newC.authInfos oldC.authInfos name ha, hv]
  · intro hv
    rw [mapGet_foldl_mapSet newC.authInfos oldC.authInfos name ha, hv]
  · intro v hv
    rw [mapGet_foldl_mapSet newC.contexts oldC.contexts name hx, hv]
  · intro hv
    rw [mapGet_foldl_mapSet newC.contexts oldC.contexts name hx, hv]

/-- Witness for kubeconfig_merge_entries at the concrete disjoint
documents, looked up at the freshly produced cluster name. -/
theorem kubeconfig_merge_entries_witness :
    ((newDocC6.clusters.map Prod.fst).Nodup ∧
      (newDocC6.authInfos.map Prod.fst).Nodup ∧
      (newDocC6.contexts.map Prod.fst).Nodup) ∧
    (∀ v, mapGet newDocC6.clusters "clusterB" = some v →
      mapGet (kubeConfigWriteLocal (some oldDocC6) newDocC6).clusters "clusterB" =
        some v) :=
  ⟨⟨by decide, by decide, by decide⟩,
   (kubeconfig_merge_entries oldDocC6 newDocC6 "clusterB"
      (by decide) (by decide) (by decide)).1.1⟩

/-- FilterNodes hands out nodes in spec order: the first filtered index
points at the first node of the spec whose role matches the selector. -/
theorem filterNodeIdxs_head_eq_find (c : Config) (sel : Role) :
    ((filterNodeIdxs c sel).head?.bind (fun i => c.nodes.get? i)) =
      c.nodes.find? (fun n => decide (n.role = sel ∨ sel = Role.any)) := by
  obtain ⟨v, cl, nodes, proxy⟩ := c
  simp only [filterNodeIdxs]
  induction nodes with
  | nil => rfl
  | cons hd tl ih =>
    have hcomp :
        ((fun i => match (hd :: tl).get? i with
                   | some node => decide (node.role = sel ∨ sel = Role.any)
                   | none => decide False) ∘ Nat.succ) =
        (fun i => match tl.get? i with
                  | some node => decide (node.role = sel ∨ sel = Role.any)
                  | none => decide False) := rfl
    rw [List.length_cons, List.range_succ_eq_map]
    by_cases h : hd.role = sel ∨ sel = Role.any
    · simp only [List.filter_cons, List.filter_map, hcomp, List.get?_cons_zero,
        decide_eq_true_eq, h, if_true]
      simp [List.find?_cons, h]
    · have hfind : List.find? (fun node => decide (node.role = sel ∨ sel = Role.any)) (hd :: tl) =
          List.find? (fun node => decide (node.role = sel ∨ sel = Role.any)) tl := by
        simp [List.find?_cons, h]
      rw [hfind, ← ih]
      simp only [List.filter_cons, List.filter_map, hcomp, List.get?_cons_zero,
        decide_eq_true_eq, h, if_false]
      generalize (List.filter (fun i => match tl.get? i with
          | some node => decide (node.role = sel ∨ sel = Role.any)
          | none => decide False) (List.range tl.length)) = L
      cases L <;> rfl

/-- From the words of the claim: the advertised host is the first
configured TLS subject-alternative-name when any is present, otherwise
the SSH host of the first control-plane node of the node list. -/
def specApiHost (c : Config) : Option String :=
  match c.cluster.server.tlsSAN.head? with
  | some san => some san
  | none => (c.nodes.find? (fun n => decide (n.role = Role.server))).map (fun n => n.ssh.host)

/-- From the words of the claim: the advertised port is the configured
port when set (AdvertisePort taking precedence over HTTPSListenPort) and
the default 6443 otherwise. -/
def specApiPort (c : Config) : Int :=
  if c.cluster.server.advertisePort ≠ 0 then c.cluster.server.advertisePort
  else if c.cluster.server.httpsListenPort ≠ 0 then c.cluster.server.httpsListenPort
  else 6443

/-- C8: on a successfully validated spec, SetSpec computes the
advertised API server URL as https://H:P where H is the first configured
TLS subject-alternative-name if any is present and otherwise the SSH
host of the first control-plane node, and P is the configured port
(AdvertisePort, falling back to HTTPSListenPort) if set and otherwise
the default 6443. -/
theorem setSpec_api_url (e : EngineState) (c : Config) (hok : c.verify = none) :
    ∃ e' host, setSpec e c = some (Except.ok e') ∧ e'.spec = c ∧
      specApiHost c = some host ∧
      e'.serverURL = "https://" ++ host ++ ":" ++ toString (specApiPort c) := by
  have hcp : c.controlPlanes ≠ 0 := ((verify_none_iff c).mp hok).2.2.1
  have hmem : ∃ n ∈ c.nodes, n.role = Role.server := by
    by_contra hno
    push_neg at hno
    have : c.nodes.filter (fun n => n.role = Role.server) = [] := by
      rw [List.filter_eq_nil_iff]
      intro n hn
      simpa using hno n hn
    exact hcp (by simp [Config.controlPlanes, this])
  have hpred : (fun n : Node => decide (n.role = Role.server ∨ Role.server = Role.any)) =
      (fun n : Node => decide (n.role = Role.server)) := by
    funext n
    simp
  have hfind : ∃ n, c.nodes.find? (fun n => decide (n.role = Role.server)) = some n := by
    obtain ⟨n, hn, hr⟩ := hmem
    have : (c.nodes.find? (fun n => decide (n.role = Role.server))).isSome := by
      rw [List.find?_isSome]
      exact ⟨n, hn, by simpa using hr⟩
    exact Option.isSome_iff_exists.mp this
  obtain ⟨n, hn⟩ := hfind
  have hbind := filterNodeIdxs_head_eq_find c Role.server
  rw [hpred, hn] at hbind
  obtain ⟨i0, hi0⟩ : ∃ i0, (filterNodeIdxs c Role.server).head? = some i0 := by
    cases hh : (filterNodeIdxs c Role.server).head? with
    | none => rw [hh] at hbind; simp at hbind
    | some i => exact ⟨i, rfl⟩
  rw [hi0] at hbind
  simp only [Option.some_bind] at hbind
  have hport : (if c.cluster.server.advertisePort ≠ 0 then c.cluster.server.advertisePort
      else if c.cluster.server.httpsListenPort ≠ 0 then c.cluster.server.httpsListenPort
      else (6443 : Int)) = specApiPort c := rfl
  cases hsan : c.cluster.server.tlsSAN.head? with
  | some san =>
    refine ⟨{ e with
                spec := c
                serverURL := "https://" ++ san ++ ":" ++ toString (specApiPort c) },
      san, ?_, rfl, by simp [specApiHost, hsan], rfl⟩
    simp only [setSpec, hok, hi0, hsan]
    rw [hport]
  | none =>
    have hbind2 : c.nodes[i0]? = some n := by
      rw [← List.get?_eq_getElem?]
      exact hbind
    have hhost : ({ e with spec := c } : EngineState).hostAt i0 = n.ssh.host := by
      simp [EngineState.hostAt, hbind2]
    refine ⟨{ e with
                spec := c
                serverURL := "https://" ++ n.ssh.host ++ ":" ++ toString (specApiPort c) },
      n.ssh.host, ?_, rfl, by simp [specApiHost, hsan, hn], rfl⟩
    simp only [setSpec, hok, hi0, hsan]
    rw [hport, hhost]


/-- A valid spec exercising setSpec_api_url: no TLS SANs, a custom
listen port, and the first control-plane behind a worker node. -/
def specC8 : Config :=
  { version := "stable"
    cluster := { server := { httpsListenPort := 8443 } }
    nodes := [{ role := Role.agent, ssh := { host := "w1" } },
              { role := Role.server, ssh := { host := "cp1" } }] }

/-- Witness for setSpec_api_url at specC8. -/
theorem setSpec_api_url_witness :
    specC8.verify = none ∧
      ∃ e' host, setSpec {} specC8 = some (Except.ok e') ∧ e'.spec = specC8 ∧
        specApiHost specC8 = some host ∧
        e'.serverURL = "https://" ++ host ++ ":" ++ toString (specApiPort specC8) :=
  ⟨by decide, setSpec_api_url {} specC8 (by decide)⟩

/-- C10: the home-directory resolution step of KubeConfig maps the empty
destination path to the index-out-of-range panic (modelled as none) and
any non-empty destination to a resolved path. -/
theorem kubeconfig_empty_path_panics (home path : String) (hne : path ≠ "") :
    resolveOutputPath home "" = none ∧
      (resolveOutputPath home path).isSome = true := by
  refine ⟨rfl, ?_⟩
  unfold resolveOutputPath
  by_cases h : path.get 0 = '~' <;> simp [hne, h]

/-- Witness for kubeconfig_empty_path_panics at the default kubeconfig
destination. -/
theorem kubeconfig_empty_path_panics_witness :
    ("~/.kube/config" ≠ "") ∧
      (resolveOutputPath "/root" "" = none ∧
        (resolveOutputPath "/root" "~/.kube/config").isSome = true) :=
  ⟨by decide, kubeconfig_empty_path_panics "/root" "~/.kube/config" (by decide)⟩


/-!  Frame and loop lemmas for the install, worker and teardown phases. -/

/-- List.set leaves every other index unchanged. -/
theorem list_get?_set_ne {α : Type} :
    ∀ (l : List α) (i j : Nat) (a : α), j ≠ i → (l.set i a).get? j = l.get? j := by
  intro l
  induction l with
  | nil => intro i j a h; simp
  | cons hd tl ih =>
    intro i j a h
    cases i with
    | zero =>
      cases j with
      | zero => exact absurd rfl h
      | succ j => simp [List.set]
    | succ i =>
      cases j with
      | zero => simp [List.set]
      | succ j =>
        simpa [List.set] using ih i j a (fun hh => h (by rw [hh]))

/-- List.set overwrites an in-range index. -/
theorem list_get?_set_eq {α : Type} :
    ∀ (l : List α) (i : Nat) (a b : α), l.get? i = some b → (l.set i a).get? i = some a := by
  intro l
  induction l with
  | nil => intro i a b h; simp at h
  | cons hd tl ih =>
    intro i a b h
    cases i with
    | zero => simp [List.set]
    | succ i =>
      simp only [List.set, List.get?_cons_succ] at h ⊢
      exact ih i a b h

/-- The installer fetch touches only the installer cache. -/
theorem fetchInstallationScript_frame (r : Remote) (e : EngineState) :
    (fetchInstallationScript r e).1.spec = e.spec ∧
    (fetchInstallationScript r e).1.clusterToken = e.clusterToken ∧
    (fetchInstallationScript r e).1.serverURL = e.serverURL ∧
    (fetchInstallationScript r e).1.cleanupPending = e.cleanupPending := by
  unfold fetchInstallationScript
  split
  · split <;> simp
  · simp

/-- Frame of ConfigureNode: only the stored fragment of the target node
changes; version, cluster fragments, proxy, token, URL, node count, the
other nodes, and the target node's role, SSH settings and session state
are preserved. -/
theorem configureNode_state_frame (r : Remote) (e : EngineState) (i : Nat) :
    (configureNode r e i).1.spec.version = e.spec.version ∧
    (configureNode r e i).1.spec.cluster = e.spec.cluster ∧
    (configureNode r e i).1.spec.sshProxy = e.spec.sshProxy ∧
    (configureNode r e i).1.clusterToken = e.clusterToken ∧
    (configureNode r e i).1.serverURL = e.serverURL ∧
    (configureNode r e i).1.spec.nodes.length = e.spec.nodes.length ∧
    (∀ j, j ≠ i → (configureNode r e i).1.spec.nodes.get? j = e.spec.nodes.get? j) ∧
    (∀ n, e.spec.nodes.get? i = some n →
      ∃ n', (configureNode r e i).1.spec.nodes.get? i = some n' ∧
        n'.role = n.role ∧ n'.ssh = n.ssh ∧ n'.connected = n.connected) := by
  unfold configureNode
  cases hget : e.spec.nodes.get? i with
  | none =>
    simp [hget]
  | some node =>
    simp only [hget]
    rcases hfe : fetchInstallationScript r { e with cleanupPending := true } with ⟨e1, o⟩
    have hfr := fetchInstallationScript_frame r { e with cleanupPending := true }
    rw [hfe] at hfr
    have hspec : e1.spec = e.spec := hfr.1
    have htok : e1.clusterToken = e.clusterToken := hfr.2.1
    have hurl : e1.serverURL = e.serverURL := hfr.2.2.1
    have hbase :
        ∀ (st : EngineState), st = e1 →
          st.spec.version = e.spec.version ∧ st.spec.cluster = e.spec.cluster ∧
          st.spec.sshProxy = e.spec.sshProxy ∧ st.clusterToken = e.clusterToken ∧
          st.serverURL = e.serverURL ∧
          st.spec.nodes.length = e.spec.nodes.length ∧
          (∀ j, j ≠ i → st.spec.nodes.get? j = e.spec.nodes.get? j) ∧
          (∃ n', st.spec.nodes.get? i = some n' ∧
            n'.role = node.role ∧ n'.ssh = node.ssh ∧ n'.connected = node.connected) := by
      rintro st rfl
      exact ⟨by rw [hspec], by rw [hspec], by rw [hspec], htok, hurl,
        by rw [hspec], fun j _ => by rw [hspec],
        ⟨node, by rw [hspec]; exact hget, rfl, rfl, rfl⟩⟩
    have hupd :
        ∀ (m : Node), m.role = node.role → m.ssh = node.ssh → m.connected = node.connected →
          (setNodeAt e1 i m).spec.version = e.spec.version ∧
          (setNodeAt e1 i m).spec.cluster = e.spec.cluster ∧
          (setNodeAt e1 i m).spec.sshProxy = e.spec.sshProxy ∧
          (setNodeAt e1 i m).clusterToken = e.clusterToken ∧
          (setNodeAt e1 i m).serverURL = e.serverURL ∧
          (setNodeAt e1 i m).spec.nodes.length = e.spec.nodes.length ∧
          (∀ j, j ≠ i → (setNodeAt e1 i m).spec.nodes.get? j = e.spec.nodes.get? j) ∧
          (∃ n', (setNodeAt e1 i m).spec.nodes.get? i = some n' ∧
            n'.role = node.role ∧ n'.ssh = node.ssh ∧ n'.connected = node.connected) := by
      intro m hr hs hc
      refine ⟨by simp [setNodeAt, hspec], by simp [setNodeAt, hspec],
        by simp [setNodeAt, hspec], by simp [setNodeAt, htok],
        by simp [setNodeAt, hurl], by simp [setNodeAt, List.length_set, hspec], ?_, ?_⟩
      · intro j hj
        simp only [setNodeAt]
        rw [list_get?_set_ne e1.spec.nodes i j m hj, hspec]
      · have hn1 : e1.spec.nodes.get? i = some node := by rw [hspec]; exact hget
        exact ⟨m, list_get?_set_eq e1.spec.nodes i m node hn1, hr, hs, hc⟩
    cases o with
    | none => simpa using hbase e1 rfl
    | some inst =>
      set s1 : Server :=
        (if node.server.advertiseAddress = ""
         then { node.server with advertiseAddress := node.ssh.host }
         else node.server) with hs1
      set m0 : Node :=
        (if node.role = Role.server
         then { node with server := Server.mergo s1 e1.spec.cluster.server }
         else node) with hm0
      set m1 : Node :=
        (if m0.role = Role.agent
         then { m0 with agent := Agent.mergo m0.agent e1.spec.cluster.agent }
         else m0) with hm1
      have hf0 : m0.role = node.role ∧ m0.ssh = node.ssh ∧ m0.connected = node.connected := by
        rw [hm0]
        by_cases h : node.role = Role.server <;> simp [h]
      have hf1 : m1.role = m0.role ∧ m1.ssh = m0.ssh ∧ m1.connected = m0.connected := by
        rw [hm1]
        by_cases h : m0.role = Role.agent <;> simp [h]
      have hnode := hupd m1 (hf1.1.trans hf0.1) (hf1.2.1.trans hf0.2.1)
        (hf1.2.2.trans hf0.2.2)
      by_cases hu1 : r.uploadOk node.ssh.host "/tmp/k3se/install.sh"
      case neg => simpa [hu1] using hbase e1 rfl
      case pos =>
      by_cases hc1 : r.cmdOk node.ssh.host chmodCmd
      case neg => simpa [hu1, hc1] using hbase e1 rfl
      case pos =>
      by_cases hu2 : r.uploadOk node.ssh.host "/tmp/k3se/config.yaml"
      case neg => simpa [hu1, hc1, hu2] using hnode
      case pos =>
      by_cases hc2 : r.cmdOk node.ssh.host mkdirCmd
      case neg => simpa [hu1, hc1, hu2, hc2] using hnode
      case pos =>
      by_cases hc3 : r.cmdOk node.ssh.host mvCmd
      case neg => simpa [hu1, hc1, hu2, hc2, hc3] using hnode
      case pos => simpa [hu1, hc1, hu2, hc2, hc3] using hnode

/-- ConfigureNode with an out-of-range index (never produced by
FilterNodes) is a no-op. -/
theorem configureNode_out_of_range (r : Remote) (e : EngineState) (i : Nat)
    (h : e.spec.nodes.get? i = none) : configureNode r e i = (e, [], none) := by
  unfold configureNode
  rw [h]

/-- ConfigureNode changes no node's host. -/
theorem configureNode_hostAt (r : Remote) (e : EngineState) (i : Nat) :
    ∀ j, (configureNode r e i).1.hostAt j = e.hostAt j := by
  intro j
  by_cases hj : j = i
  · subst hj
    cases hget : e.spec.nodes.get? j with
    | none => rw [configureNode_out_of_range r e j hget]
    | some n =>
      obtain ⟨n', hn', hrole, hssh, hconn⟩ :=
        (configureNode_state_frame r e j).2.2.2.2.2.2.2 n hget
      unfold EngineState.hostAt
      rw [hn', hget]
      show n'.ssh.host = n.ssh.host
      rw [hssh]
  · have heq := (configureNode_state_frame r e i).2.2.2.2.2.2.1 j hj
    unfold EngineState.hostAt
    rw [heq]

/-- ConfigureNode changes no node's role, so role filtering is stable. -/
theorem configureNode_filterIdxs (r : Remote) (e : EngineState) (i : Nat) (sel : Role) :
    filterNodeIdxs (configureNode r e i).1.spec sel = filterNodeIdxs e.spec sel := by
  unfold filterNodeIdxs
  rw [(configureNode_state_frame r e i).2.2.2.2.2.1]
  apply List.filter_congr
  intro j _
  by_cases hj : j = i
  · subst hj
    cases hget : e.spec.nodes.get? j with
    | none =>
      rw [configureNode_out_of_range r e j hget]
      show (match e.spec.nodes.get? j with
            | some node => decide (node.role = sel ∨ sel = Role.any)
            | none => decide False) =
          (match (none : Option Node) with
            | some node => decide (node.role = sel ∨ sel = Role.any)
            | none => decide False)
      rw [hget]
    | some n =>
      obtain ⟨n', hn', hrole, hssh, hconn⟩ :=
        (configureNode_state_frame r e j).2.2.2.2.2.2.2 n hget
      rw [hn']
      show decide (n'.role = sel ∨ sel = Role.any) = decide (n.role = sel ∨ sel = Role.any)
      rw [hrole]
  · rw [(configureNode_state_frame r e i).2.2.2.2.2.2.1 j hj]

/-- ConfigureNode only uploads and runs setup commands; it never runs
the installer. -/
theorem configureNode_no_install (r : Remote) (e : EngineState) (i : Nat)
    (h : String) (envE : InstallEnv) :
    Event.install h envE ∉ (configureNode r e i).2.1 := by
  unfold configureNode
  cases hget : e.spec.nodes.get? i with
  | none => simp
  | some node =>
    simp only [hget]
    rcases hfe : fetchInstallationScript r { e with cleanupPending := true } with ⟨e1, o⟩
    cases o with
    | none => simp
    | some inst =>
      by_cases hu1 : r.uploadOk node.ssh.host "/tmp/k3se/install.sh"
      case neg => simp [hu1]
      case pos =>
      by_cases hc1 : r.cmdOk node.ssh.host chmodCmd
      case neg => simp [hu1, hc1]
      case pos =>
      by_cases hu2 : r.uploadOk node.ssh.host "/tmp/k3se/config.yaml"
      case neg => simp [hu1, hc1, hu2]
      case pos =>
      by_cases hc2 : r.cmdOk node.ssh.host mkdirCmd
      case neg => simp [hu1, hc1, hu2, hc2]
      case pos =>
      by_cases hc3 : r.cmdOk node.ssh.host mvCmd
      case neg => simp [hu1, hc1, hu2, hc2, hc3]
      case pos => simp [hu1, hc1, hu2, hc2, hc3]

/-- Equation for a failing token read. -/
theorem fetchClusterToken_fail (r : Remote) (e : EngineState) (host : String)
    (h : ¬ r.cmdOk host tokenCmd = true) :
    fetchClusterToken r e host =
      (e, [Event.run host tokenCmd], some (EngErr.cmdFailed host tokenCmd)) := by
  unfold fetchClusterToken
  simp [h]

/-- Equation for a successful token read: the trimmed stdout becomes the
cluster token. -/
theorem fetchClusterToken_ok (r : Remote) (e : EngineState) (host : String)
    (h : r.cmdOk host tokenCmd = true) :
    fetchClusterToken r e host =
      ({ e with clusterToken := trimSpace (r.cmdOut host tokenCmd) },
       [Event.run host tokenCmd], none) := by
  unfold fetchClusterToken
  simp [h]

/-- Invariant of the control-plane loop: if every remaining server
reports the token value T, then every install invocation emitted by the
loop passes either no token or exactly T, and a fully successful
non-empty loop leaves T as the engine's cluster token. -/
theorem cpLoop_token_inv (r : Remote) (T : String) :
    ∀ (idxs : List Nat) (e : EngineState) (env : InstallEnv) (isFirst : Bool),
      (∀ i ∈ idxs, trimSpace (r.cmdOut (e.hostAt i) tokenCmd) = T) →
      (isFirst = true ∨ e.clusterToken = T) →
      (env.token = none ∨ env.token = some T) →
      (∀ h envE, Event.install h envE ∈ (cpLoop r e env idxs isFirst).2.1 →
         envE.token = none ∨ envE.token = some T) ∧
      ((cpLoop r e env idxs isFirst).2.2 = none → idxs ≠ [] →
         (cpLoop r e env idxs isFirst).1.clusterToken = T) := by
  intro idxs
  induction idxs with
  | nil =>
    intro e env isFirst _ _ _
    constructor
    · intro h envE hmem
      simp [cpLoop] at hmem
    · intro _ hne
      exact absurd rfl hne
  | cons i rest ih =>
    intro e env isFirst hread hstart henv
    rcases hcfg : configureNode r e i with ⟨e1, ev1, err1⟩
    have hframe := configureNode_state_frame r e i
    rw [hcfg] at hframe
    have hhost : ∀ j, e1.hostAt j = e.hostAt j := by
      intro j
      have hj := configureNode_hostAt r e i j
      rw [hcfg] at hj
      exact hj
    have hnoinst : ∀ h envE, Event.install h envE ∉ ev1 := by
      intro h envE
      have hni := configureNode_no_install r e i h envE
      rw [hcfg] at hni
      exact hni
    cases err1 with
    | some err =>
      simp only [cpLoop, hcfg]
      constructor
      · intro h envE hmem
        exact absurd hmem (hnoinst h envE)
      · intro habs
        simp at habs
    | none =>
      simp only [cpLoop, hcfg]
      have henv1 :
          (if isFirst then env
           else { env with url := some e1.serverURL, token := some e1.clusterToken }).token =
              none ∨
          (if isFirst then env
           else { env with url := some e1.serverURL, token := some e1.clusterToken }).token =
              some T := by
        cases isFirst with
        | true => simpa using henv
        | false =>
          right
          have htk : e1.clusterToken = T := by
            rw [hframe.2.2.2.1]
            rcases hstart with h | h
            · cases h
            · exact h
          simp [htk]
      by_cases hinst : r.cmdOk (e1.hostAt i) installCmd
      case neg =>
        simp only [hinst, Bool.false_eq_true, not_false_eq_true, if_true]
        constructor
        · intro h envE hmem
          simp only [List.mem_append, List.mem_singleton] at hmem
          rcases hmem with hm | hm
          · exact absurd hm (hnoinst h envE)
          · cases hm
            exact henv1
        · intro habs
          simp at habs
      case pos =>
        simp only [hinst, not_true_eq_false, if_false]
        by_cases htok : r.cmdOk (e1.hostAt i) tokenCmd
        case neg =>
          rw [fetchClusterToken_fail r e1 (e1.hostAt i) (by simpa using htok)]
          constructor
          · intro h envE hmem
            simp only [List.mem_append, List.mem_singleton] at hmem
            rcases hmem with (hm | hm) | hm
            · exact absurd hm (hnoinst h envE)
            · cases hm
              exact henv1
            · cases hm
          · intro habs
            simp at habs
        case pos =>
          rw [fetchClusterToken_ok r e1 (e1.hostAt i) htok]
          have he2tok :
              ({ e1 with clusterToken := trimSpace (r.cmdOut (e1.hostAt i) tokenCmd) }
                : EngineState).clusterToken = T := by
            show trimSpace (r.cmdOut (e1.hostAt i) tokenCmd) = T
            rw [hhost i]
            exact hread i (List.mem_cons_self i rest)
          have hread' : ∀ i' ∈ rest,
              trimSpace (r.cmdOut
                (({ e1 with clusterToken := trimSpace (r.cmdOut (e1.hostAt i) tokenCmd) }
                  : EngineState).hostAt i') tokenCmd) = T := by
            intro i' hi'
            have hsame :
                ({ e1 with clusterToken := trimSpace (r.cmdOut (e1.hostAt i) tokenCmd) }
                  : EngineState).hostAt i' = e1.hostAt i' := rfl
            rw [hsame, hhost i']
            exact hread i' (List.mem_cons_of_mem i hi')
          have hih := ih _ _ false hread' (Or.inr he2tok) henv1
          rcases hloop : cpLoop r
              { e1 with clusterToken := trimSpace (r.cmdOut (e1.hostAt i) tokenCmd) }
              (if isFirst then env
               else { env with url := some e1.serverURL, token := some e1.clusterToken })
              rest false with ⟨e3, ev4, err4⟩
          rw [hloop] at hih
          simp only [hloop]
          constructor
          · intro h envE hmem
            simp only [List.mem_append, List.mem_singleton] at hmem
            rcases hmem with ((hm | hm) | hm) | hm
            · exact absurd hm (hnoinst h envE)
            · cases hm
              exact henv1
            · cases hm
            · exact hih.1 h envE hm
          · intro herr hne
            cases rest with
            | nil =>
              have : (e3, ev4, err4) =
                  (({ e1 with clusterToken := trimSpace (r.cmdOut (e1.hostAt i) tokenCmd) }
                    : EngineState), ([] : List Event), (none : Option EngErr)) := by
                rw [← hloop]
                rfl
              cases this
              exact he2tok
            | cons r2 rs =>
              exact hih.2 herr (by simp)

/-- The control-plane loop changes no node's host and no node's role. -/
theorem cpLoop_spec_preservation (r : Remote) :
    ∀ (idxs : List Nat) (e : EngineState) (env : InstallEnv) (isFirst : Bool),
      (∀ j, (cpLoop r e env idxs isFirst).1.hostAt j = e.hostAt j) ∧
      (∀ sel, filterNodeIdxs (cpLoop r e env idxs isFirst).1.spec sel =
        filterNodeIdxs e.spec sel) := by
  intro idxs
  induction idxs with
  | nil =>
    intro e env isFirst
    exact ⟨fun j => rfl, fun sel => rfl⟩
  | cons i rest ih =>
    intro e env isFirst
    rcases hcfg : configureNode r e i with ⟨e1, ev1, err1⟩
    have hhost1 : ∀ j, e1.hostAt j = e.hostAt j := by
      intro j
      have hj := configureNode_hostAt r e i j
      rw [hcfg] at hj
      exact hj
    have hfil1 : ∀ sel, filterNodeIdxs e1.spec sel = filterNodeIdxs e.spec sel := by
      intro sel
      have hs := configureNode_filterIdxs r e i sel
      rw [hcfg] at hs
      exact hs
    cases err1 with
    | some err =>
      simp only [cpLoop, hcfg]
      exact ⟨hhost1, hfil1⟩
    | none =>
      simp only [cpLoop, hcfg]
      by_cases hinst : r.cmdOk (e1.hostAt i) installCmd
      case neg =>
        simp only [hinst, Bool.false_eq_true, not_false_eq_true, if_true]
        exact ⟨hhost1, hfil1⟩
      case pos =>
        simp only [hinst, not_true_eq_false, if_false]
        by_cases htok : r.cmdOk (e1.hostAt i) tokenCmd
        case neg =>
          rw [fetchClusterToken_fail r e1 (e1.hostAt i) (by simpa using htok)]
          exact ⟨hhost1, hfil1⟩
        case pos =>
          rw [fetchClusterToken_ok r e1 (e1.hostAt i) htok]
          rcases hloop : cpLoop r
              { e1 with clusterToken := trimSpace (r.cmdOut (e1.hostAt i) tokenCmd) }
              (if isFirst then env
               else { env with url := some e1.serverURL, token := some e1.clusterToken })
              rest false with ⟨e3, ev4, err4⟩
          have hih := ih { e1 with clusterToken := trimSpace (r.cmdOut (e1.hostAt i) tokenCmd) }
            (if isFirst then env
             else { env with url := some e1.serverURL, token := some e1.clusterToken }) false
          rw [hloop] at hih
          simp only [hloop]
          constructor
          · intro j
            have h2 : ({ e1 with
                clusterToken := trimSpace (r.cmdOut (e1.hostAt i) tokenCmd) }
                  : EngineState).hostAt j = e1.hostAt j := rfl
            rw [hih.1 j, h2, hhost1 j]
          · intro sel
            have h2 : filterNodeIdxs ({ e1 with
                clusterToken := trimSpace (r.cmdOut (e1.hostAt i) tokenCmd) }
                  : EngineState).spec sel = filterNodeIdxs e1.spec sel := rfl
            rw [hih.2 sel, h2, hfil1 sel]

/-- installControlPlanes instantiates the loop invariant with an
environment that initially carries no token. -/
theorem installControlPlanes_token (r : Remote) (e : EngineState) (T : String)
    (hread : ∀ i ∈ filterNodeIdxs e.spec Role.server,
      trimSpace (r.cmdOut (e.hostAt i) tokenCmd) = T) :
    (∀ h envE, Event.install h envE ∈ (installControlPlanes r e).2.1 →
       envE.token = none ∨ envE.token = some T) ∧
    ((installControlPlanes r e).2.2 = none → filterNodeIdxs e.spec Role.server ≠ [] →
       (installControlPlanes r e).1.clusterToken = T) := by
  unfold installControlPlanes
  exact cpLoop_token_inv r T (filterNodeIdxs e.spec Role.server) e _ true hread
    (Or.inl rfl) (Or.inl rfl)

/-- A worker task never changes the cluster token and passes exactly the
current cluster token to its install invocation. -/
theorem workerTask_token_events (r : Remote) (e : EngineState) (i : Nat) :
    (workerTask r e i).1.clusterToken = e.clusterToken ∧
    (∀ h envE, Event.install h envE ∈ (workerTask r e i).2.1 →
       envE.token = some e.clusterToken) := by
  unfold workerTask
  rcases hcfg : configureNode r e i with ⟨e1, ev1, err1⟩
  have hframe := configureNode_state_frame r e i
  rw [hcfg] at hframe
  have htok : e1.clusterToken = e.clusterToken := hframe.2.2.2.1
  have hnoinst : ∀ h envE, Event.install h envE ∉ ev1 := by
    intro h envE
    have hni := configureNode_no_install r e i h envE
    rw [hcfg] at hni
    exact hni
  cases err1 with
  | some err =>
    refine ⟨htok, ?_⟩
    intro h envE hmem
    simp only [List.mem_append, List.mem_singleton] at hmem
    rcases hmem with hm | hm
    · exact absurd hm (hnoinst h envE)
    · cases hm
  | none =>
    by_cases hcmd : r.cmdOk (e.hostAt i) installCmd
    case neg =>
      simp only [hcmd, Bool.false_eq_true, not_false_eq_true, if_true]
      refine ⟨htok, ?_⟩
      intro h envE hmem
      simp only [List.mem_append, List.mem_singleton] at hmem
      rcases hmem with (hm | hm) | hm
      · exact absurd hm (hnoinst h envE)
      · cases hm
        simp [htok]
      · cases hm
    case pos =>
      simp only [hcmd, not_true_eq_false, if_false]
      refine ⟨htok, ?_⟩
      intro h envE hmem
      simp only [List.mem_append, List.mem_singleton] at hmem
      rcases hmem with hm | hm
      · exact absurd hm (hnoinst h envE)
      · cases hm
        simp [htok]

/-- A worker task changes no node's host. -/
theorem workerTask_hostAt (r : Remote) (e : EngineState) (i : Nat) :
    ∀ j, (workerTask r e i).1.hostAt j = e.hostAt j := by
  intro j
  unfold workerTask
  rcases hcfg : configureNode r e i with ⟨e1, ev1, err1⟩
  have hhost : e1.hostAt j = e.hostAt j := by
    have hj := configureNode_hostAt r e i j
    rw [hcfg] at hj
    exact hj
  cases err1 with
  | some err => exact hhost
  | none =>
    by_cases hcmd : r.cmdOk (e.hostAt i) installCmd
    case neg => simpa [hcmd] using hhost
    case pos => simpa [hcmd] using hhost

/-- Every worker task runs to completion: it ends in its install
invocation or in a logged per-node error. -/
theorem workerTask_completion (r : Remote) (e : EngineState) (i : Nat) :
    (∃ envE, Event.install (e.hostAt i) envE ∈ (workerTask r e i).2.1) ∨
    (∃ msg, Event.logError (e.hostAt i) msg ∈ (workerTask r e i).2.1) := by
  unfold workerTask
  rcases hcfg : configureNode r e i with ⟨e1, ev1, err1⟩
  cases err1 with
  | some err =>
    right
    exact ⟨"Failed to configure node", by simp⟩
  | none =>
    by_cases hcmd : r.cmdOk (e.hostAt i) installCmd
    case neg =>
      right
      refine ⟨"Failed to run installation script", ?_⟩
      simp [hcmd]
    case pos =>
      left
      exact ⟨{ forceRestart := "true", exec := "agent", channel := e1.spec.version,
               url := some e1.serverURL, token := some e1.clusterToken }, by simp [hcmd]⟩

/-- The worker fan-out leaves the cluster token unchanged and passes it
to every worker install invocation. -/
theorem workersLoop_token (r : Remote) :
    ∀ (idxs : List Nat) (e : EngineState),
      (workersLoop r e idxs).1.clusterToken = e.clusterToken ∧
      (∀ h envE, Event.install h envE ∈ (workersLoop r e idxs).2 →
        envE.token = some e.clusterToken) := by
  intro idxs
  induction idxs with
  | nil =>
    intro e
    refine ⟨rfl, ?_⟩
    intro h envE hmem
    simp [workersLoop] at hmem
  | cons i rest ih =>
    intro e
    rcases htask : workerTask r e i with ⟨e1, ev1, err1⟩
    have hwt := workerTask_token_events r e i
    rw [htask] at hwt
    rcases hloop : workersLoop r e1 rest with ⟨e2, ev2⟩
    have hih := ih e1
    rw [hloop] at hih
    simp only [workersLoop, htask, hloop]
    constructor
    · show e2.clusterToken = e.clusterToken
      rw [hih.1, hwt.1]
    · intro h envE hmem
      simp only [List.mem_append] at hmem
      rcases hmem with hm | hm
      · exact hwt.2 h envE hm
      · rw [← hwt.1]
        exact hih.2 h envE hm

/-- Every worker in the fan-out list is attempted, regardless of the
outcomes of the other workers' tasks. -/
theorem workersLoop_attempts (r : Remote) :
    ∀ (idxs : List Nat) (e : EngineState), ∀ i ∈ idxs,
      (∃ envE, Event.install (e.hostAt i) envE ∈ (workersLoop r e idxs).2) ∨
      (∃ msg, Event.logError (e.hostAt i) msg ∈ (workersLoop r e idxs).2) := by
  intro idxs
  induction idxs with
  | nil =>
    intro e i hmem
    simp at hmem
  | cons i0 rest ih =>
    intro e i hmem
    rcases htask : workerTask r e i0 with ⟨e1, ev1, err1⟩
    rcases hloop : workersLoop r e1 rest with ⟨e2, ev2⟩
    simp only [workersLoop, htask, hloop]
    rcases List.mem_cons.mp hmem with hi | hi
    · subst hi
      have hc := workerTask_completion r e i
      rw [htask] at hc
      rcases hc with ⟨envE, hin⟩ | ⟨msg, hin⟩
      · exact Or.inl ⟨envE, by simp [hin]⟩
      · exact Or.inr ⟨msg, by simp [hin]⟩
    · have hhost : e1.hostAt i = e.hostAt i := by
        have hj := workerTask_hostAt r e i0 i
        rw [htask] at hj
        exact hj
      have hih := ih e1 i hi
      rw [hloop, hhost] at hih
      rcases hih with ⟨envE, hin⟩ | ⟨msg, hin⟩
      · exact Or.inl ⟨envE, by simp [hin]⟩
      · exact Or.inr ⟨msg, by simp [hin]⟩

/-!  Concrete runs used by counterexamples and witnesses. -/

/-- A control-plane node with the given host and default settings. -/
def nodeCP (h : String) : Node := { role := Role.server, ssh := { host := h } }

/-- A worker node with the given host and default settings. -/
def nodeW (h : String) : Node := { role := Role.agent, ssh := { host := h } }

/-- Three control-planes and one worker. -/
def specC1 : Config :=
  { version := "stable"
    nodes := [nodeCP "cp1", nodeCP "cp2", nodeCP "cp3", nodeW "w1"] }

/-- Remote on which every operation succeeds and the token file reads
back "tokA" on cp1 but "tokB" on every other host. -/
def rC1 : Remote :=
  { installerFetch := some "#!/bin/sh"
    cmdOut := fun h c => if c = tokenCmd then (if h = "cp1" then "tokA" else "tokB") else "" }

/-- Engine state after SetSpec on specC1. -/
def eC1 : EngineState := { spec := specC1, serverURL := "https://cp1:6443" }

/-- The environment of the install invocation run on the given host, if
the event is such an invocation. -/
def installEnvOf (h : String) (ev : Event) : Option InstallEnv :=
  match ev with
  | Event.install hh envE => if hh = h then some envE else none
  | _ => none

/-- Remote on which every control-plane reports the same token value
(with surrounding whitespace, exercising the trim). -/
def rC1w : Remote :=
  { installerFetch := some "#!/bin/sh"
    cmdOut := fun _ c => if c = tokenCmd then " tokS\n" else "" }

/-- Engine state after SetSpec on specC1 for the witness run. -/
def eC1w : EngineState := { spec := specC1, serverURL := "https://cp1:6443" }

/-- One control-plane and two workers. -/
def specC5 : Config :=
  { version := "stable"
    nodes := [nodeCP "cp1", nodeW "w1", nodeW "w2"] }

/-- Remote on which every upload to w1 fails and everything else
succeeds. -/
def rC5 : Remote :=
  { installerFetch := some "#!/bin/sh"
    uploadOk := fun h _ => if h = "w1" then false else true
    cmdOut := fun _ c => if c = tokenCmd then "tokS" else "" }

/-- Engine state after SetSpec on specC5. -/
def eC5 : EngineState := { spec := specC5, serverURL := "https://cp1:6443" }

/-- Two connected nodes for the teardown run. -/
def specC7 : Config :=
  { version := "stable"
    nodes := [{ role := Role.server, ssh := { host := "h1" }, connected := true },
              { role := Role.agent, ssh := { host := "h2" }, connected := true }] }

/-- Remote on which the temporary-directory cleanup fails on every host
while everything else succeeds. -/
def rC7 : Remote :=
  { cmdOk := fun _ c => if c = rmCmd then false else true }

/-- Engine state with pending cleanup over specC7. -/
def eC7 : EngineState := { spec := specC7, cleanupPending := true }

/-- A control-plane and a worker under a cluster fragment carrying one
node label. -/
def specC9 : Config :=
  { version := "stable"
    cluster := { server := { nodeLabel := ["role=infra"] } }
    nodes := [nodeCP "h1", nodeW "w1"] }

/-- Remote on which every operation succeeds. -/
def rOk : Remote := { installerFetch := some "#!/bin/sh" }

/-- Engine state holding specC9. -/
def eC9 : EngineState := { spec := specC9 }

/-!  Claim theorems for the install, worker, teardown and frame claims. -/

/-- C1 (amended): during Install the engine re-reads the cluster token
after every control-plane installation, so each joining invocation is
passed the most recently read token.  Provided every control-plane
reports the same token value, every install invocation that carries a
K3S_TOKEN carries exactly the (trimmed) token read from control-plane
#1; the first control-plane's own invocation carries none. -/
theorem install_token_propagation (r : Remote) (e : EngineState) (i0 : Nat)
    (h0 : (filterNodeIdxs e.spec Role.server).head? = some i0)
    (hsame : ∀ i ∈ filterNodeIdxs e.spec Role.server,
      trimSpace (r.cmdOut (e.hostAt i) tokenCmd) =
        trimSpace (r.cmdOut (e.hostAt i0) tokenCmd)) :
    ∀ h envE, Event.install h envE ∈ (install r e).2.1 →
      envE.token = none ∨
        envE.token = some (trimSpace (r.cmdOut (e.hostAt i0) tokenCmd)) := by
  intro h envE hmem
  rcases hcp : installControlPlanes r e with ⟨e1, ev1, err1⟩
  have hcpthm := installControlPlanes_token r e
    (trimSpace (r.cmdOut (e.hostAt i0) tokenCmd)) hsame
  rw [hcp] at hcpthm
  cases err1 with
  | some err =>
    have hh : (install r e).2.1 = ev1 := by
      simp [install, hcp]
    rw [hh] at hmem
    exact hcpthm.1 h envE hmem
  | none =>
    rcases hw : installWorkers r e1 with ⟨e2, ev2⟩
    have hh : (install r e).2.1 = ev1 ++ ev2 := by
      simp [install, hcp, hw]
    rw [hh] at hmem
    rcases List.mem_append.mp hmem with hm | hm
    · exact hcpthm.1 h envE hm
    · have hne : filterNodeIdxs e.spec Role.server ≠ [] := by
        intro hnil
        rw [hnil] at h0
        cases h0
      have htokT : e1.clusterToken = trimSpace (r.cmdOut (e.hostAt i0) tokenCmd) :=
        hcpthm.2 rfl hne
      have hwl := workersLoop_token r (filterNodeIdxs e1.spec Role.agent) e1
      have hiw : installWorkers r e1 =
          workersLoop r e1 (filterNodeIdxs e1.spec Role.agent) := rfl
      rw [hiw] at hw
      rw [hw] at hwl
      right
      rw [← htokT]
      exact hwl.2 h envE hm

/-- C1 counterexample: with three control-planes whose token files read
back different values, control-plane #2 is passed the token read from
control-plane #1 ("tokA"), but control-plane #3 and the worker are
passed the token re-read from a later control-plane ("tokB"), refuting
the claim as stated. -/
theorem install_token_counterexample :
    (filterNodeIdxs eC1.spec Role.server).head? = some 0 ∧
    eC1.hostAt 0 = "cp1" ∧
    trimSpace (rC1.cmdOut "cp1" tokenCmd) = "tokA" ∧
    ((install rC1 eC1).2.1.filterMap (installEnvOf "cp2")).map InstallEnv.token =
      [some "tokA"] ∧
    ((install rC1 eC1).2.1.filterMap (installEnvOf "cp3")).map InstallEnv.token =
      [some "tokB"] ∧
    ((install rC1 eC1).2.1.filterMap (installEnvOf "w1")).map InstallEnv.token =
      [some "tokB"] ∧
    some "tokB" ≠ some "tokA" := by decide

/-- Witness for install_token_propagation on a run whose control-planes
all report the same token. -/
theorem install_token_propagation_witness :
    ((filterNodeIdxs eC1w.spec Role.server).head? = some 0 ∧
      (∀ i ∈ filterNodeIdxs eC1w.spec Role.server,
        trimSpace (rC1w.cmdOut (eC1w.hostAt i) tokenCmd) =
          trimSpace (rC1w.cmdOut (eC1w.hostAt 0) tokenCmd))) ∧
    (∀ h envE, Event.install h envE ∈ (install rC1w eC1w).2.1 →
      envE.token = none ∨
        envE.token = some (trimSpace (rC1w.cmdOut (eC1w.hostAt 0) tokenCmd))) :=
  ⟨⟨by decide, by decide⟩,
   install_token_propagation rC1w eC1w 0 (by decide) (by decide)⟩

/-- C5 (amended): a failure in one worker node's configure-or-install
task does not abort the other workers' tasks — whenever the
control-plane phase succeeds, every configured worker is attempted to
completion, ending in its install invocation or a logged per-node
error — but worker-task errors are only logged: Install then returns
nil, so they are never surfaced in the aggregate result returned to the
caller. -/
theorem install_worker_errors_swallowed (r : Remote) (e : EngineState)
    (hcp : (installControlPlanes r e).2.2 = none) :
    (install r e).2.2 = none ∧
    (∀ i ∈ filterNodeIdxs e.spec Role.agent,
      (∃ envE, Event.install (e.hostAt i) envE ∈ (install r e).2.1) ∨
      (∃ msg, Event.logError (e.hostAt i) msg ∈ (install r e).2.1)) := by
  rcases hcpq : installControlPlanes r e with ⟨e1, ev1, err1⟩
  rw [hcpq] at hcp
  have hpres := cpLoop_spec_preservation r (filterNodeIdxs e.spec Role.server) e
    { forceRestart := "true"
      exec := if (filterNodeIdxs e.spec Role.server).length > 1
              then "server --cluster-init" else "server"
      channel := e.spec.version
      url := none
      token := none } true
  have hcpq2 : cpLoop r e
      { forceRestart := "true"
        exec := if (filterNodeIdxs e.spec Role.server).length > 1
                then "server --cluster-init" else "server"
        channel := e.spec.version
        url := none
        token := none } (filterNodeIdxs e.spec Role.server) true = (e1, ev1, err1) := hcpq
  rw [hcpq2] at hpres
  cases err1 with
  | some err => cases hcp
  | none =>
    rcases hw : installWorkers r e1 with ⟨e2, ev2⟩
    have hh : (install r e).2.1 = ev1 ++ ev2 := by
      simp [install, hcpq, hw]
    constructor
    · simp [install, hcpq, hw]
    · intro i hi
      have hi1 : i ∈ filterNodeIdxs e1.spec Role.agent := by
        rw [hpres.2 Role.agent]
        exact hi
      have hiw : installWorkers r e1 =
          workersLoop r e1 (filterNodeIdxs e1.spec Role.agent) := rfl
      rw [hiw] at hw
      have hatt := workersLoop_attempts r (filterNodeIdxs e1.spec Role.agent) e1 i hi1
      rw [hw] at hatt
      rw [hpres.1 i] at hatt
      rw [hh]
      rcases hatt with ⟨envE, hin⟩ | ⟨msg, hin⟩
      · exact Or.inl ⟨envE, List.mem_append.mpr (Or.inr hin)⟩
      · exact Or.inr ⟨msg, List.mem_append.mpr (Or.inr hin)⟩

/-- C5 counterexample: worker w1's configuration fails and the failure
is merely logged, worker w2 still installs, and Install reports no
error to its caller — the worker error is silently discarded from the
aggregate result. -/
theorem install_worker_swallow_counterexample :
    (install rC5 eC5).2.2 = none ∧
    Event.logError "w1" "Failed to configure node" ∈ (install rC5 eC5).2.1 ∧
    Event.install "w2"
      { forceRestart := "true", exec := "agent", channel := "stable",
        url := some "https://cp1:6443", token := some "tokS" } ∈
      (install rC5 eC5).2.1 := by decide


/-- Witness for install_worker_errors_swallowed at the failing-worker
run. -/
theorem install_worker_errors_swallowed_witness :
    ((installControlPlanes rC5 eC5).2.2 = none) ∧
    ((install rC5 eC5).2.2 = none ∧
      (∀ i ∈ filterNodeIdxs eC5.spec Role.agent,
        (∃ envE, Event.install (eC5.hostAt i) envE ∈ (install rC5 eC5).2.1) ∨
        (∃ msg, Event.logError (eC5.hostAt i) msg ∈ (install rC5 eC5).2.1))) :=
  ⟨by decide, install_worker_errors_swallowed rC5 eC5 (by decide)⟩

/-- C7 (amended): Disconnect short-circuits: the first node whose
cleanup or session close fails makes Disconnect return exactly that
node's error at once; the run is identical to one in which the nodes
after the failing one do not exist, so their cleanup and session close
are never attempted and errors are not aggregated. -/
theorem disconnect_stops_at_first_error (r : Remote) (e : EngineState)
    (pre : List Node) (nf : Node) (post : List Node)
    (hsplit : e.spec.nodes = pre ++ nf :: post)
    (hpre : ∀ n ∈ pre, (teardownNode r e.cleanupPending n).2 = none)
    (hnf : (teardownNode r e.cleanupPending nf).2 ≠ none) :
    disconnect r e = disconnectLoop r e.cleanupPending (pre ++ [nf]) ∧
    (disconnect r e).2 = (teardownNode r e.cleanupPending nf).2 := by
  have hmain : ∀ (pre : List Node),
      (∀ n ∈ pre, (teardownNode r e.cleanupPending n).2 = none) →
      disconnectLoop r e.cleanupPending (pre ++ nf :: post) =
        disconnectLoop r e.cleanupPending (pre ++ [nf]) ∧
      (disconnectLoop r e.cleanupPending (pre ++ nf :: post)).2 =
        (teardownNode r e.cleanupPending nf).2 := by
    intro pre
    induction pre with
    | nil =>
      intro _
      rcases htd : teardownNode r e.cleanupPending nf with ⟨ev1, err1⟩
      rw [htd] at hnf
      cases err1 with
      | none => exact absurd rfl hnf
      | some err =>
        constructor
        · simp only [List.nil_append, disconnectLoop, htd]
        · simp only [List.nil_append, disconnectLoop, htd]
    | cons n0 pre ih =>
      intro hoks
      have hn0 := hoks n0 (List.mem_cons_self n0 pre)
      rcases htd0 : teardownNode r e.cleanupPending n0 with ⟨ev0, err0⟩
      rw [htd0] at hn0
      subst hn0
      have hih := ih (fun m hm => hoks m (List.mem_cons_of_mem n0 hm))
      have hstep : ∀ (rest : List Node),
          disconnectLoop r e.cleanupPending (n0 :: rest) =
            (ev0 ++ (disconnectLoop r e.cleanupPending rest).1,
             (disconnectLoop r e.cleanupPending rest).2) := by
        intro rest
        rcases hrest : disconnectLoop r e.cleanupPending rest with ⟨ev2, err2⟩
        simp only [disconnectLoop, htd0, hrest]
      constructor
      · rw [List.cons_append, List.cons_append, hstep, hstep, hih.1]
      · rw [List.cons_append, hstep]
        exact hih.2
  have hres := hmain pre hpre
  unfold disconnect
  rw [hsplit]
  exact hres

/-- C7 counterexample: with two connected nodes whose cleanups would
both fail, Disconnect returns after node h1's failed cleanup carrying
only that error; node h2's cleanup and both session closes are never
attempted. -/
theorem disconnect_counterexample :
    disconnect rC7 eC7 = ([Event.run "h1" rmCmd], some (EngErr.cmdFailed "h1" rmCmd)) ∧
    rC7.cmdOk "h2" rmCmd = false ∧
    (Event.run "h2" rmCmd ∉ (disconnect rC7 eC7).1 ∧
      Event.close "h2" ∉ (disconnect rC7 eC7).1 ∧
      Event.close "h1" ∉ (disconnect rC7 eC7).1) := by decide

/-- Witness for disconnect_stops_at_first_error with the failing node
first. -/
theorem disconnect_stops_witness :
    (eC7.spec.nodes = [] ++ { role := Role.server, ssh := { host := "h1" }, connected := true } ::
        [{ role := Role.agent, ssh := { host := "h2" }, connected := true }] ∧
      (∀ n ∈ ([] : List Node), (teardownNode rC7 eC7.cleanupPending n).2 = none) ∧
      (teardownNode rC7 eC7.cleanupPending
        { role := Role.server, ssh := { host := "h1" }, connected := true }).2 ≠ none) ∧
    (disconnect rC7 eC7 = disconnectLoop rC7 eC7.cleanupPending
        ([] ++ [{ role := Role.server, ssh := { host := "h1" }, connected := true }]) ∧
      (disconnect rC7 eC7).2 = (teardownNode rC7 eC7.cleanupPending
        { role := Role.server, ssh := { host := "h1" }, connected := true }).2) :=
  ⟨⟨by decide, by decide, by decide⟩,
   disconnect_stops_at_first_error rC7 eC7 []
     { role := Role.server, ssh := { host := "h1" }, connected := true }
     [{ role := Role.agent, ssh := { host := "h2" }, connected := true }]
     (by decide) (by decide) (by decide)⟩

/-- C9 (amended): ConfigureNode merges the cluster fragment into the
spec's stored node fragment in place, so the root spec is not
read-only; everything else is framed: the spec's version, cluster
fragments and proxy settings, the node count, every other node, and the
target node's role, SSH settings and session state are unchanged, as
are the engine's cluster token and server URL. -/
theorem spec_readonly_frame (r : Remote) (e : EngineState) (i : Nat) :
    (configureNode r e i).1.spec.version = e.spec.version ∧
    (configureNode r e i).1.spec.cluster = e.spec.cluster ∧
    (configureNode r e i).1.spec.sshProxy = e.spec.sshProxy ∧
    (configureNode r e i).1.clusterToken = e.clusterToken ∧
    (configureNode r e i).1.serverURL = e.serverURL ∧
    (configureNode r e i).1.spec.nodes.length = e.spec.nodes.length ∧
    (∀ j, j ≠ i → (configureNode r e i).1.spec.nodes.get? j = e.spec.nodes.get? j) ∧
    (∀ n, e.spec.nodes.get? i = some n →
      ∃ n', (configureNode r e i).1.spec.nodes.get? i = some n' ∧
        n'.role = n.role ∧ n'.ssh = n.ssh ∧ n'.connected = n.connected) :=
  configureNode_state_frame r e i

/-- C9 counterexample: a successful ConfigureNode run on the
control-plane node rewrites the stored node fragment — the advertise
address is defaulted to the SSH host and the cluster's node label is
merged into the stored labels — so the root spec changes. -/
theorem configureNode_mutates_spec :
    (configureNode rOk eC9 0).2.2 = none ∧
    (configureNode rOk eC9 0).1.spec ≠ eC9.spec ∧
    (eC9.spec.nodes.get? 0).map (fun n => n.server.advertiseAddress) = some "" ∧
    ((configureNode rOk eC9 0).1.spec.nodes.get? 0).map
      (fun n => n.server.advertiseAddress) = some "h1" ∧
    (eC9.spec.nodes.get? 0).map (fun n => n.server.nodeLabel) = some [] ∧
    ((configureNode rOk eC9 0).1.spec.nodes.get? 0).map
      (fun n => n.server.nodeLabel) = some ["role=infra"] := by decide

/-- Witness for spec_readonly_frame: the worker node entry and the
control-plane's role, SSH settings and session state survive
ConfigureNode. -/
theorem spec_readonly_frame_witness :
    ((1 : Nat) ≠ 0 ∧
      (configureNode rOk eC9 0).1.spec.nodes.get? 1 = eC9.spec.nodes.get? 1) ∧
    (eC9.spec.nodes.get? 0 = some (nodeCP "h1") ∧
      ∃ n', (configureNode rOk eC9 0).1.spec.nodes.get? 0 = some n' ∧
        n'.role = (nodeCP "h1").role ∧ n'.ssh = (nodeCP "h1").ssh ∧
        n'.connected = (nodeCP "h1").connected) :=
  ⟨⟨by decide, (spec_readonly_frame rOk eC9 0).2.2.2.2.2.2.1 1 (by decide)⟩,
   ⟨by decide, (spec_readonly_frame rOk eC9 0).2.2.2.2.2.2.2 (nodeCP "h1") (by decide)⟩⟩

end K3se
